import Mathlib

/-!
# spop: the libspotify session layer (src/spotify.c)

A shallow embedding of the playback clock, the session-callback registry,
the playlist accessors, the track metadata extractor and the libspotify
event scheduler of `src/spotify.c`, followed by the properties proved about
them.

Conventions of the embedding.

* C pointers are natural numbers, `NULL` is `0`.
* `unsigned int` values are natural numbers reduced modulo `2^32`; `int`
  values are integers. `toU32` is the conversion `int -> unsigned int`,
  `toI32` the conversion `unsigned int -> int` (two's complement).
* Calls into libspotify, GLib and the audio plugin are not part of this file:
  what they return is a parameter of the function that calls them, and the
  calls a function makes are returned as a list of `Effect`s, in call order.
* `g_error` aborts the process: a function that can reach it returns an
  `Option`, and `none` is the abort.
-/

namespace Spop

/-! ## Machine integers and pointers -/

/-- A C pointer; `NULL` is `0`. -/
abbrev Ptr := Nat

/-- The `NULL` pointer. -/
def NULL : Ptr := 0

/-- Conversion of an `int` to `unsigned int` (32 bits). -/
def toU32 (x : Int) : Nat := (x % 4294967296).toNat

/-- Conversion of an `unsigned int` to `int` (32 bits, two's complement). -/
def toI32 (x : Nat) : Int :=
  if x % 4294967296 < 2147483648 then ((x % 4294967296 : Nat) : Int)
  else ((x % 4294967296 : Nat) : Int) - 4294967296

/-! ## Session callbacks (lines 55-63) -/

/-- The C enum `session_callback_type`. -/
inductive session_callback_type where
  | SPOP_SESSION_LOAD
  | SPOP_SESSION_UNLOAD
deriving DecidableEq, Repr

/-- The C struct `session_callback`: a function pointer and its user data. -/
structure session_callback where
  func : Ptr
  user_data : Ptr
deriving DecidableEq, Repr

/-- The C struct `session_callback_data`: what a dispatch hands to every callback. -/
structure session_callback_data where
  type : session_callback_type
  data : Ptr
deriving DecidableEq, Repr

/-! ## The GLib main context, as far as this file uses it -/

/-- The function a GLib source runs when it is dispatched. -/
inductive GSourceFunc where
  | libspotify_event
  | next_track_event
deriving DecidableEq, Repr

/-- An event source attached to the main context: `interval = none` is an idle
source (`g_idle_add_full`), `interval = some ms` a timeout (`g_timeout_add`). -/
structure GSource where
  id : Nat
  interval : Option Nat
  func : GSourceFunc
deriving DecidableEq, Repr

/-! ## Calls to the outside -/

/-- A call this file makes to libspotify, to the audio plugin or to a
subscriber callback. -/
inductive Effect where
  | callback (func : Ptr) (type : session_callback_type) (data : Ptr) (user_data : Ptr)
  | sp_session_player_load (track : Ptr)
  | sp_session_player_play (play : Bool)
  | sp_session_player_unload
  | g_audio_delivery_func_flush
  | sp_session_starred_create
  | sp_track_add_ref (h : Ptr)
  | sp_track_release (h : Ptr)
  | sp_artist_add_ref (h : Ptr)
  | sp_artist_release (h : Ptr)
  | sp_album_add_ref (h : Ptr)
  | sp_album_release (h : Ptr)
  | sp_link_create_from_track (h : Ptr)
  | sp_link_release (h : Ptr)
  | sp_image_create (h : Ptr)
  | sp_image_release (h : Ptr)
deriving DecidableEq, Repr

/-! ## Global variables (lines 44-55, and the static `evid` of line 528) -/

/-- The global variables of `spotify.c`, with the GLib main context they act on. -/
structure State where
  g_starred_playlist : Ptr
  g_audio_time : Nat
  g_audio_samples : Nat
  g_audio_rate : Nat
  g_session_callbacks : List session_callback
  evid : Nat
  sources : List GSource
  next_source_id : Nat
deriving DecidableEq, Repr

/-- The values the globals are initialised with; GLib source ids start at 1. -/
def State.initial : State :=
  { g_starred_playlist := NULL
    g_audio_time := 0
    g_audio_samples := 0
    g_audio_rate := 44100
    g_session_callbacks := []
    evid := 0
    sources := []
    next_source_id := 1 }

/-! ## GLib primitives -/

/-- Attach a new source: GLib hands out the next id, which is greater than 0. -/
def g_source_attach (st : State) (interval : Option Nat) (func : GSourceFunc) : Nat × State :=
  (st.next_source_id,
   { st with sources := st.sources ++ [{ id := st.next_source_id, interval := interval, func := func }]
             next_source_id := st.next_source_id + 1 })

/-- The GLib call `g_source_remove(tag)`: the source with that id is destroyed. -/
def g_source_remove (st : State) (tag : Nat) : State :=
  { st with sources := st.sources.filter (fun s => s.id != tag) }

/-- The callback `cb_notify_main_thread` (lines 588-590): queue one idle run of
`session_libspotify_event`. -/
def cb_notify_main_thread (st : State) : State :=
  (g_source_attach st none GSourceFunc.libspotify_event).2

/-! ## Playback clock (lines 280-282, 591-604) -/

/-- The callback `cb_music_delivery` (lines 591-604). `n` is what
`g_audio_delivery_func` returned for the delivered frames. -/
def cb_music_delivery (st : State) (sample_rate : Int) (n : Int) : Int × State :=
  if toU32 sample_rate = st.g_audio_rate then
    (n, { st with g_audio_samples := (st.g_audio_samples + toU32 n) % 4294967296 })
  else if n > 0 then
    (n, { st with g_audio_time := (st.g_audio_time + st.g_audio_samples / st.g_audio_rate) % 4294967296
                  g_audio_samples := toU32 n
                  g_audio_rate := toU32 sample_rate })
  else
    (n, st)

/-- The function `session_play_time` (lines 280-282): the sum is computed in
`unsigned int` and returned as `int`. -/
def session_play_time (st : State) : Int :=
  toI32 ((st.g_audio_time + st.g_audio_samples / st.g_audio_rate) % 4294967296)

/-- A run of `cb_music_delivery` calls that all carry the same sample rate;
`ns` are the accepted frame counts, in call order. -/
def deliver_all (st : State) (sample_rate : Int) (ns : List Int) : State :=
  ns.foldl (fun s n => (cb_music_delivery s sample_rate n).2) st

/-! ## Session load and unload, callback registry (lines 224-260, 305-331) -/

/-- The function `session_call_callback` (lines 305-310): one call of
`scb->func(scbd->type, scbd->data, scb->user_data)`. -/
def session_call_callback (scb : session_callback) (scbd : session_callback_data) : List Effect :=
  [Effect.callback scb.func scbd.type scbd.data scb.user_data]

/-- The GLib call `g_list_foreach(list, func, user_data)`: `func` is called on
every element, from the head of the list to its end. -/
def g_list_foreach {α β : Type} (list : List α) (func : α → β → List Effect) (user_data : β) :
    List Effect :=
  match list with
  | [] => []
  | data :: next => func data user_data ++ g_list_foreach next func user_data

/-- The search loop of `session_add_callback` (lines 317-323): is there an
entry with this `func` and this `user_data`? -/
def session_add_callback_scan : List session_callback → Ptr → Ptr → Bool
  | [], _, _ => false
  | scb :: next, func, user_data =>
    if scb.func = func ∧ scb.user_data = user_data then true
    else session_add_callback_scan next func user_data

/-- The function `session_add_callback` (lines 312-331); `g_list_prepend` puts the
new entry at the head. -/
def session_add_callback (st : State) (func user_data : Ptr) : Bool × State :=
  if session_add_callback_scan st.g_session_callbacks func user_data then
    (false, st)
  else
    (true, { st with g_session_callbacks :=
                      { func := func, user_data := user_data } :: st.g_session_callbacks })

/-- A run of `session_add_callback` calls, in call order; the return values are dropped. -/
def add_callbacks (st : State) (ps : List session_callback) : State :=
  ps.foldl (fun s p => (session_add_callback s p.func p.user_data).2) st

/-- The pairs for which `session_add_callback` returned `TRUE` during a run of
calls, in call order: the subscriptions that were made. -/
def add_callbacks_log (st : State) : List session_callback → List session_callback
  | [] => []
  | p :: rest =>
    let r := session_add_callback st p.func p.user_data
    (if r.1 then [p] else []) ++ add_callbacks_log r.2 rest

/-- The call a dispatch makes for the subscriber `p`. -/
def callback_of (scbd : session_callback_data) (p : session_callback) : Effect :=
  Effect.callback p.func scbd.type scbd.data p.user_data

/-- The dispatch both `session_load` and `session_unload` perform (lines 240, 251):
`g_list_foreach(g_session_callbacks, session_call_callback, &scbd)`. -/
def dispatch (st : State) (scbd : session_callback_data) : List Effect :=
  g_list_foreach st.g_session_callbacks session_call_callback scbd

/-- The function `session_load` (lines 224-241). `load_ok` says whether
`sp_session_player_load` returned `SP_ERROR_OK`; otherwise `g_error` aborts. -/
def session_load (st : State) (track : Ptr) (load_ok : Bool) : Option (State × List Effect) :=
  if !load_ok then none
  else
    some (cb_notify_main_thread st,
          [Effect.sp_session_player_load track]
            ++ dispatch st { type := session_callback_type.SPOP_SESSION_LOAD, data := track })

/-- The function `session_unload` (lines 243-260). The subscriber callbacks and
the libspotify calls are outside this file and leave its globals alone. -/
def session_unload (st : State) : State × List Effect :=
  let fx := dispatch st { type := session_callback_type.SPOP_SESSION_UNLOAD, data := NULL }
  let fx := fx ++ [Effect.sp_session_player_play false, Effect.g_audio_delivery_func_flush,
                   Effect.sp_session_player_unload]
  let st := cb_notify_main_thread st
  ({ st with g_audio_samples := 0, g_audio_time := 0 }, fx)

/-! ## Playlist management (lines 167-179) -/

/-- The function `playlists_len` (lines 167-169); the argument is what
`sp_playlistcontainer_num_playlists(g_container)` returns, the sum is an `int`. -/
def playlists_len (sp_playlistcontainer_num_playlists : Int) : Int :=
  toI32 (toU32 (sp_playlistcontainer_num_playlists + 1))

/-- The function `playlist_get` (lines 171-179). `starred_create` is the handle
`sp_session_starred_create` returns if it is called now, `container_playlist i`
the handle `sp_playlistcontainer_playlist(g_container, i)` returns. -/
def playlist_get (st : State) (nb : Int) (starred_create : Ptr) (container_playlist : Int → Ptr) :
    Ptr × State × List Effect :=
  if nb = 0 then
    if st.g_starred_playlist = NULL then
      (starred_create, { st with g_starred_playlist := starred_create },
        [Effect.sp_session_starred_create])
    else
      (st.g_starred_playlist, st, [])
  else
    (container_playlist (nb - 1), st, [])

/-- A run of `playlist_get` calls: each call comes with its `nb` and with the
handle the engine would create for it. Returns the handles returned, the final
state and the calls made to libspotify. -/
def playlist_get_all (st : State) (container_playlist : Int → Ptr) :
    List (Int × Ptr) → List Ptr × State × List Effect
  | [] => ([], st, [])
  | (nb, starred_create) :: rest =>
    let r := playlist_get st nb starred_create container_playlist
    let rs := playlist_get_all r.2.1 container_playlist rest
    (r.1 :: rs.1, rs.2.1, r.2.2 ++ rs.2.2)

/-! ## Tracks management (lines 359-495) -/

/-- What libspotify answers about an image handle. `handle = NULL` stands for
a failed `sp_image_create`, `data = none` for `sp_image_data` returning `NULL`. -/
structure sp_image where
  handle : Ptr
  is_loaded : Bool
  data : Option (List Nat)
deriving DecidableEq, Repr

/-- What libspotify answers about an artist handle. -/
structure sp_artist where
  handle : Ptr
  is_loaded : Bool
  name : String
deriving DecidableEq, Repr

/-- What libspotify answers about an album handle. `cover = none` stands for
`sp_album_cover` returning `NULL`; otherwise `cover` is the image that
`sp_image_create` yields for the cover id. -/
structure sp_album where
  handle : Ptr
  is_loaded : Bool
  name : String
  cover : Option sp_image
deriving DecidableEq, Repr

/-- What libspotify answers about the link created from a track. `handle = NULL`
stands for `sp_link_create_from_track` failing; `as_string = none` for
`sp_link_as_string` returning a negative value, otherwise it is the text
rendered into the 1024-byte buffer. -/
structure sp_link where
  handle : Ptr
  as_string : Option String
deriving DecidableEq, Repr

/-- What libspotify answers about a track handle; `artists` are
`sp_track_artist(track, 0)` .. `sp_track_artist(track, num_artists - 1)`. -/
structure sp_track where
  handle : Ptr
  is_loaded : Bool
  name : String
  artists : List sp_artist
  album : sp_album
  link : sp_link
  duration : Int
deriving DecidableEq, Repr

/-- The output parameters of `track_get_data`; `none` is a parameter that was
not written (a `NULL` pointer was passed, or the function returned early). -/
structure TrackData where
  name : Option String
  artist : Option String
  album : Option String
  link : Option String
  duration : Option Int
deriving DecidableEq, Repr

/-- No output parameter written. -/
def TrackData.untouched : TrackData :=
  { name := none, artist := none, album := none, link := none, duration := none }

/-- The first artist loop of `track_get_data` (lines 383-386): fetch every artist
and take a reference on it. -/
def track_get_data_add_refs : List sp_artist → List Effect
  | [] => []
  | a :: rest => Effect.sp_artist_add_ref a.handle :: track_get_data_add_refs rest

/-- The second artist loop of `track_get_data` (lines 413-423), entered at index `i`
with `art` the artists from index `i` on and `tmp` the string built so far.
Returns the final string and the releases, in order. -/
def track_get_data_join : List sp_artist → Nat → String → String × List Effect
  | [], _, tmp => (tmp, [])
  | a :: rest, i, tmp =>
    let s := if a.is_loaded then a.name else "[artist not loaded]"
    let tmp := if i ≠ 0 then tmp ++ ", " else tmp
    let tmp := tmp ++ s
    let r := track_get_data_join rest (i + 1) tmp
    (r.1, Effect.sp_artist_release a.handle :: r.2)

/-- The link block of `track_get_data` (lines 392-405): `none` is a `g_error`. -/
def track_get_data_link (track : sp_track) : Option (String × List Effect) :=
  if track.link.handle = NULL then none
  else
    match track.link.as_string with
    | none => none
    | some str =>
      some (str, [Effect.sp_link_create_from_track track.link.handle,
                  Effect.sp_link_release track.link.handle])

/-- The function `track_get_data` (lines 359-436). The five flags say which output
pointers are not `NULL`; `malloc_ok` says whether `malloc` returned a block for
the artist array. `none` is a `g_error`. -/
def track_get_data (track : sp_track) (name artist album link duration : Bool)
    (malloc_ok : Bool) : Option (TrackData × List Effect) :=
  if !track.is_loaded then
    some (TrackData.untouched,
          [Effect.sp_track_add_ref track.handle, Effect.sp_track_release track.handle])
  else if artist && !malloc_ok then none
  else
    match (if link then (track_get_data_link track).map (fun r => (some r.1, r.2))
           else some (none, [])) with
    | none => none
    | some (link_out, link_fx) =>
      let joined := track_get_data_join track.artists 0 ""
      some ({ name := if name then some track.name else none
              artist := if artist then some joined.1 else none
              album := if album then
                         some (if track.album.is_loaded then track.album.name
                               else "[album not loaded]")
                       else none
              link := link_out
              duration := if duration then some (Int.tdiv track.duration 1000) else none },
            [Effect.sp_track_add_ref track.handle]
              ++ (if artist then track_get_data_add_refs track.artists else [])
              ++ (if album then [Effect.sp_album_add_ref track.album.handle] else [])
              ++ link_fx
              ++ (if artist then joined.2 else [])
              ++ (if album then [Effect.sp_album_release track.album.handle] else [])
              ++ [Effect.sp_track_release track.handle])

/-- The function `track_get_image` (lines 442-471): `none` is a `g_error`,
`some (none, _)` the return value `NULL` (no cover). -/
def track_get_image (track : sp_track) : Option (Option sp_image × List Effect) :=
  if track.album.handle = NULL then none
  else if !track.album.is_loaded then none
  else
    match track.album.cover with
    | none =>
      some (none, [Effect.sp_album_add_ref track.album.handle,
                   Effect.sp_album_release track.album.handle])
    | some img =>
      if img.handle = NULL then none
      else
        some (some img, [Effect.sp_album_add_ref track.album.handle,
                         Effect.sp_image_create img.handle,
                         Effect.sp_album_release track.album.handle])

/-- The output parameters `*data` and `*len` of `track_get_image_data`;
`data = none` is `NULL`. -/
structure ImageData where
  data : Option (List Nat)
  len : Nat
deriving DecidableEq, Repr

/-- The function `track_get_image_data` (lines 473-495): the return value, the
output parameters (`none` when they are not written) and the calls made.
The outer `none` is a `g_error`. -/
def track_get_image_data (track : sp_track) : Option (Bool × Option ImageData × List Effect) :=
  match track_get_image track with
  | none => none
  | some (none, fx) => some (true, some { data := none, len := 0 }, fx)
  | some (some img, fx) =>
    if !img.is_loaded then some (false, none, fx)
    else
      match img.data with
      | none => none
      | some bytes =>
        some (true, some { data := some bytes, len := bytes.length },
              fx ++ [Effect.sp_image_release img.handle])

/-! ## Reference accounting over a list of calls -/

/-- The kinds of libspotify handles this file takes references on. -/
inductive HandleKind where
  | track
  | artist
  | album
  | link
  | image
deriving DecidableEq, Repr

/-- The reference a call acquires, if any. -/
def Effect.acquires : Effect → Option (HandleKind × Ptr)
  | Effect.sp_track_add_ref h => some (HandleKind.track, h)
  | Effect.sp_artist_add_ref h => some (HandleKind.artist, h)
  | Effect.sp_album_add_ref h => some (HandleKind.album, h)
  | Effect.sp_link_create_from_track h => some (HandleKind.link, h)
  | Effect.sp_image_create h => some (HandleKind.image, h)
  | _ => none

/-- The reference a call gives back, if any. -/
def Effect.releases : Effect → Option (HandleKind × Ptr)
  | Effect.sp_track_release h => some (HandleKind.track, h)
  | Effect.sp_artist_release h => some (HandleKind.artist, h)
  | Effect.sp_album_release h => some (HandleKind.album, h)
  | Effect.sp_link_release h => some (HandleKind.link, h)
  | Effect.sp_image_release h => some (HandleKind.image, h)
  | _ => none

/-- The references acquired by a list of calls, in order. -/
def acquired (fx : List Effect) : List (HandleKind × Ptr) := fx.filterMap Effect.acquires

/-- The references released by a list of calls, in order. -/
def released (fx : List Effect) : List (HandleKind × Ptr) := fx.filterMap Effect.releases

/-- The change of a handle's reference count over a list of calls. -/
def refcount_delta (fx : List Effect) (h : HandleKind × Ptr) : Int :=
  ((acquired fx).count h : Int) - ((released fx).count h : Int)

/-- Replay a list of calls against the references currently held: an
acquisition adds the reference, a release needs it to be held and removes it.
`none` when something is released that is not held. -/
def held_after : List Effect → Multiset (HandleKind × Ptr) → Option (Multiset (HandleKind × Ptr))
  | [], held => some held
  | e :: rest, held =>
    match e.acquires, e.releases with
    | some h, _ => held_after rest (h ::ₘ held)
    | none, some h => if h ∈ held then held_after rest (held.erase h) else none
    | none, none => held_after rest held

/-- The reference `track_get_data` holds on an artist between its two loops. -/
def artist_ref (a : sp_artist) : HandleKind × Ptr := (HandleKind.artist, a.handle)

/-- The text an artist contributes to the artist string (lines 414-417). -/
def artist_text (a : sp_artist) : String :=
  if a.is_loaded then a.name else "[artist not loaded]"

/-- The paths of `track_get_data` on which no `g_error` is reached: the track is
not loaded, or the artist array could be allocated if it was asked for and
the link could be created and rendered if it was asked for. -/
def track_get_data_no_error (track : sp_track) (artist link malloc_ok : Bool) : Bool :=
  !track.is_loaded ||
    ((!artist || malloc_ok) &&
     (!link || (decide (track.link.handle ≠ NULL) && track.link.as_string.isSome)))

/-! ## Events management (lines 527-542) -/

/-- The loop of lines 534-536. `deadlines` are the values `sp_session_process_events`
stores in `timeout`, call after call; the loop leaves with the first that
is greater than 1. `none`: no such value comes. -/
def process_events_loop : List Int → Option Int
  | [] => none
  | timeout :: rest => if timeout ≤ 1 then process_events_loop rest else some timeout

/-- The first statement of `session_libspotify_event` (lines 531-532). -/
def session_libspotify_event_remove (st : State) : State :=
  if st.evid > 0 then g_source_remove st st.evid else st

/-- The function `session_libspotify_event` (lines 527-542): the return value
(always `FALSE`) and the state after it. `none` when the loop does not end. -/
def session_libspotify_event (st : State) (deadlines : List Int) : Option (Bool × State) :=
  let st := session_libspotify_event_remove st
  match process_events_loop deadlines with
  | none => none
  | some timeout =>
    let r := g_source_attach st (some (toU32 timeout)) GSourceFunc.libspotify_event
    some (false, { r.2 with evid := r.1 })

/-- The callback `cb_end_of_track` (lines 614-617): queue one idle run of
`session_next_track_event`. -/
def cb_end_of_track (st : State) : State :=
  (g_source_attach st none GSourceFunc.next_track_event).2

/-- GLib dispatches the source `id`: its function runs, and when that returns
`FALSE` the source is destroyed. `deadlines` is what libspotify reports during
this run. A source id that is not attached dispatches nothing.
`session_next_track_event` only calls `queue_next` and returns `FALSE`. -/
def g_main_dispatch (st : State) (id : Nat) (deadlines : List Int) : Option State :=
  match st.sources.find? (fun s => s.id == id) with
  | none => some st
  | some src =>
    match src.func with
    | GSourceFunc.libspotify_event =>
      match session_libspotify_event st deadlines with
      | none => none
      | some (keep, st1) => some (if keep then st1 else g_source_remove st1 id)
    | GSourceFunc.next_track_event => some (g_source_remove st id)

/-- What can happen to the scheduler between two looks at it. -/
inductive SchedEvent where
  | notify_main_thread
  | end_of_track
  | dispatch (id : Nat) (deadlines : List Int)
deriving DecidableEq, Repr

/-- One scheduler event. -/
def sched_step (st : State) : SchedEvent → Option State
  | SchedEvent.notify_main_thread => some (cb_notify_main_thread st)
  | SchedEvent.end_of_track => some (cb_end_of_track st)
  | SchedEvent.dispatch id deadlines => g_main_dispatch st id deadlines

/-- A sequence of scheduler events, in order. -/
def sched_run (st : State) : List SchedEvent → Option State
  | [] => some st
  | e :: rest =>
    match sched_step st e with
    | none => none
    | some st1 => sched_run st1 rest

/-- The timeouts `session_libspotify_event` has armed and that are still pending. -/
def pending_timers (st : State) : List GSource :=
  st.sources.filter (fun s => s.interval.isSome && (s.func == GSourceFunc.libspotify_event))

/-- What every reachable scheduler state satisfies: source ids are below the
next id GLib hands out, and the only timeout of `session_libspotify_event`
that can be pending is the one `evid` names. -/
def sched_inv (st : State) : Prop :=
  0 < st.next_source_id ∧
  (∀ s ∈ st.sources, s.id < st.next_source_id) ∧
  (pending_timers st = [] ∨
    (0 < st.evid ∧ st.evid < st.next_source_id ∧
      ∃ ms, pending_timers st =
        [{ id := st.evid, interval := some ms, func := GSourceFunc.libspotify_event }]))

end Spop

namespace Spop

/-! ## Machine-integer facts -/

theorem toU32_of_range (x : Int) (h0 : 0 ≤ x) (h1 : x < 4294967296) : toU32 x = x.toNat := by
  unfold toU32
  rw [Int.emod_eq_of_lt h0 h1]

theorem toI32_of_small (x : Nat) (h : x < 2147483648) : toI32 x = (x : Int) := by
  unfold toI32
  have hx : x % 4294967296 = x := Nat.mod_eq_of_lt (by omega)
  rw [hx, if_pos h]

/-! ## Playback clock -/

/-- What a run of same-rate deliveries keeps true: no whole seconds have been
folded, the sample counter is the sum of the accepted frames, and the rate is
already the delivered one unless nothing has been accepted yet. -/
theorem deliver_all_state (R : Int) (hR0 : 0 < R) (hR1 : R < 2147483648) :
    ∀ (ns : List Int) (st : State),
      (∀ n ∈ ns, 0 ≤ n) →
      (st.g_audio_samples : Int) + ns.sum < 4294967296 →
      st.g_audio_time = 0 →
      (st.g_audio_rate = R.toNat ∨ st.g_audio_samples = 0) →
      (deliver_all st R ns).g_audio_time = 0 ∧
      ((deliver_all st R ns).g_audio_samples : Int) = (st.g_audio_samples : Int) + ns.sum ∧
      ((deliver_all st R ns).g_audio_rate = R.toNat ∨
        (deliver_all st R ns).g_audio_samples = 0) := by
  have hRu : toU32 R = R.toNat := toU32_of_range R (le_of_lt hR0) (by omega)
  intro ns
  induction ns with
  | nil =>
    intro st _ _ ht hr
    simp [deliver_all, ht, hr]
  | cons n rest ih =>
    intro st hpos hsum ht hr
    have hn0 : 0 ≤ n := hpos n (List.mem_cons_self _ _)
    have hrest : ∀ m ∈ rest, 0 ≤ m := fun m hm => hpos m (List.mem_cons_of_mem _ hm)
    have hrest0 : 0 ≤ rest.sum := List.sum_nonneg hrest
    rw [List.sum_cons] at hsum
    have hnu : toU32 n = n.toNat := toU32_of_range n hn0 (by omega)
    have hstep : deliver_all st R (n :: rest) = deliver_all (cb_music_delivery st R n).2 R rest := rfl
    rw [hstep, List.sum_cons]
    by_cases hsame : toU32 R = st.g_audio_rate
    · have hst : (cb_music_delivery st R n).2 =
          { st with g_audio_samples := (st.g_audio_samples + toU32 n) % 4294967296 } := by
        simp [cb_music_delivery, hsame]
      have hmod : (st.g_audio_samples + toU32 n) % 4294967296 = st.g_audio_samples + n.toNat := by
        rw [hnu]
        apply Nat.mod_eq_of_lt
        omega
      rw [hst, hmod]
      have := ih { st with g_audio_samples := st.g_audio_samples + n.toNat } hrest
        (by simp only; omega) (by simpa using ht) (Or.inl (by simp only; omega))
      obtain ⟨h1, h2, h3⟩ := this
      refine ⟨h1, ?_, h3⟩
      rw [h2]
      simp only
      omega
    · have hs0 : st.g_audio_samples = 0 := by
        rcases hr with hr | hr
        · exact absurd (hRu.trans hr.symm) hsame
        · exact hr
      by_cases hn : n > 0
      · have hst : (cb_music_delivery st R n).2 =
            { st with g_audio_time := (st.g_audio_time + st.g_audio_samples / st.g_audio_rate) % 4294967296
                      g_audio_samples := toU32 n
                      g_audio_rate := toU32 R } := by
          simp [cb_music_delivery, hsame, hn]
        rw [hst, hnu, hRu, ht, hs0]
        have := ih { st with g_audio_time := (0 + 0 / st.g_audio_rate) % 4294967296
                             g_audio_samples := n.toNat
                             g_audio_rate := R.toNat } hrest
          (by simp only; omega) (by simp) (Or.inl rfl)
        obtain ⟨h1, h2, h3⟩ := this
        refine ⟨h1, ?_, h3⟩
        rw [h2]
        simp only
        omega
      · have hst : (cb_music_delivery st R n).2 = st := by
          simp [cb_music_delivery, hsame, hn]
        have hn00 : n = 0 := by omega
        rw [hst]
        have := ih st hrest (by omega) ht hr
        obtain ⟨h1, h2, h3⟩ := this
        refine ⟨h1, ?_, h3⟩
        rw [h2, hn00]
        omega

/-- C1, as amended: from the initial clock, after any finite run of
`cb_music_delivery` calls that all carry the positive rate `R` and accept
non-negative frame counts of total `N < 2^32`, `session_play_time` returns
`floor (N / R)`, provided that value fits the `int` it is returned in
(`floor (N / R) < 2^31`, which is always so for `R ≥ 2`). -/
theorem C1_play_time_constant_rate (R : Int) (ns : List Int)
    (hR0 : 0 < R) (hR1 : R < 2147483648)
    (hpos : ∀ n ∈ ns, 0 ≤ n) (hsum : ns.sum < 4294967296)
    (hfit : ns.sum / R < 2147483648) :
    session_play_time (deliver_all State.initial R ns) = ns.sum / R := by
  obtain ⟨ht, hs, hr⟩ := deliver_all_state R hR0 hR1 ns State.initial hpos
    (by simpa [State.initial] using hsum) rfl (Or.inr rfl)
  have hs2 : ((deliver_all State.initial R ns).g_audio_samples : Int) = ns.sum := by
    rw [hs]
    simp [State.initial]
  have hN0 : 0 ≤ ns.sum := List.sum_nonneg hpos
  have hq0 : 0 ≤ ns.sum / R := Int.ediv_nonneg hN0 (le_of_lt hR0)
  have hdiv : (((deliver_all State.initial R ns).g_audio_samples /
      (deliver_all State.initial R ns).g_audio_rate : Nat) : Int) = ns.sum / R := by
    rcases hr with hr | hr
    · rw [hr, Int.natCast_div, hs2, Int.toNat_of_nonneg (le_of_lt hR0)]
    · have h0 : ns.sum = 0 := by
        rw [← hs2, hr]
        rfl
      rw [hr, h0]
      simp
  unfold session_play_time
  rw [ht, Nat.zero_add]
  have hlt : (deliver_all State.initial R ns).g_audio_samples /
      (deliver_all State.initial R ns).g_audio_rate < 2147483648 := by
    have : (((deliver_all State.initial R ns).g_audio_samples /
      (deliver_all State.initial R ns).g_audio_rate : Nat) : Int) < 2147483648 := by
      rw [hdiv]
      exact hfit
    exact_mod_cast this
  rw [Nat.mod_eq_of_lt (by omega), toI32_of_small _ hlt, hdiv]

/-- C1 at a concrete run: three deliveries at 48000 Hz, one of them empty,
96001 frames in all, give a play time of 2 seconds. -/
theorem C1_play_time_constant_rate_witness :
    session_play_time (deliver_all State.initial 48000 [48000, 0, 48001]) = 2 :=
  C1_play_time_constant_rate 48000 [48000, 0, 48001] (by decide) (by decide)
    (by decide) (by decide) (by decide)

/-- C1 as stated fails: at rate 1, two deliveries of `2^30` frames total
`N = 2^31 < 2^32`, every count is non-negative, and `session_play_time`
returns `-2^31`, not `floor (N / R) = 2^31`, which no `int` can hold. -/
theorem C1_counterexample :
    (0 : Int) < 1 ∧
    (∀ n ∈ [(1073741824 : Int), 1073741824], 0 ≤ n) ∧
    List.sum [(1073741824 : Int), 1073741824] < 4294967296 ∧
    session_play_time (deliver_all State.initial 1 [1073741824, 1073741824]) = -2147483648 ∧
    session_play_time (deliver_all State.initial 1 [1073741824, 1073741824])
      ≠ List.sum [(1073741824 : Int), 1073741824] / 1 := by
  decide

/-- C2: in any clock state `(t, S1, R1)` with `R1 > 0`, a `cb_music_delivery` call
whose rate `R2` differs from `R1` and that accepts `n > 0` frames leaves the
clock at `(t + S1 / R1 mod 2^32, n, R2)`, the rate being stored as an
`unsigned int`; nothing else of the state changes, and `n` is returned. -/
theorem C2_rate_change_folds (st : State) (R2 n : Int)
    (_hR1 : 0 < st.g_audio_rate) (hdiff : toU32 R2 ≠ st.g_audio_rate)
    (hn0 : 0 < n) (hn1 : n < 2147483648) :
    cb_music_delivery st R2 n =
      (n, { st with
              g_audio_time :=
                (st.g_audio_time + st.g_audio_samples / st.g_audio_rate) % 4294967296
              g_audio_samples := n.toNat
              g_audio_rate := toU32 R2 }) ∧
    ((cb_music_delivery st R2 n).2.g_audio_samples : Int) = n ∧
    (0 ≤ R2 → R2 < 4294967296 → ((cb_music_delivery st R2 n).2.g_audio_rate : Int) = R2) := by
  have hnu : toU32 n = n.toNat := toU32_of_range n (le_of_lt hn0) (by omega)
  have hstep : cb_music_delivery st R2 n =
      (n, { st with
              g_audio_time :=
                (st.g_audio_time + st.g_audio_samples / st.g_audio_rate) % 4294967296
              g_audio_samples := n.toNat
              g_audio_rate := toU32 R2 }) := by
    simp [cb_music_delivery, hdiff, hn0, hnu]
  refine ⟨hstep, ?_, ?_⟩
  · rw [hstep]
    simp only
    omega
  · intro h0 h1
    rw [hstep]
    simp only
    rw [toU32_of_range R2 h0 h1]
    omega

/-- C2 at a concrete call: 100000 samples at 44100 Hz after 7 whole seconds,
then 512 frames at 48000 Hz. -/
theorem C2_rate_change_folds_witness :
    cb_music_delivery { State.initial with g_audio_time := 7, g_audio_samples := 100000 }
        48000 512
      = (512, { State.initial with
                  g_audio_time := 9, g_audio_samples := 512, g_audio_rate := 48000 }) :=
  (C2_rate_change_folds { State.initial with g_audio_time := 7, g_audio_samples := 100000 }
    48000 512 (by decide) (by decide) (by decide) (by decide)).1

/-- C3, as amended: after `session_unload` the whole seconds and the sample
counter are 0 and the sample rate is the one the clock had before the call
(44100 only if no delivery changed it); `session_play_time` then returns 0. -/
theorem C3_unload_resets_time_and_samples (st : State) (hrate : 0 < st.g_audio_rate) :
    (session_unload st).1.g_audio_time = 0 ∧
    (session_unload st).1.g_audio_samples = 0 ∧
    (session_unload st).1.g_audio_rate = st.g_audio_rate ∧
    0 < (session_unload st).1.g_audio_rate ∧
    session_play_time (session_unload st).1 = 0 := by
  refine ⟨rfl, rfl, rfl, hrate, ?_⟩
  simp [session_play_time, session_unload, toI32]

/-- C3 at a concrete state: the clock after one second of 48000 Hz audio. -/
theorem C3_unload_resets_time_and_samples_witness :
    (session_unload (cb_music_delivery State.initial 48000 48000).2).1.g_audio_time = 0 ∧
    (session_unload (cb_music_delivery State.initial 48000 48000).2).1.g_audio_samples = 0 ∧
    (session_unload (cb_music_delivery State.initial 48000 48000).2).1.g_audio_rate = 48000 :=
  have h := C3_unload_resets_time_and_samples
    (cb_music_delivery State.initial 48000 48000).2 (by decide)
  ⟨h.1, h.2.1, h.2.2.1⟩

/-- C3 as stated fails: one delivery of a frame at 48000 Hz moves the rate away
from 44100, and `session_unload` leaves it at 48000, so the clock is not back
in its default state. -/
theorem C3_counterexample :
    (cb_music_delivery State.initial 48000 1).2.g_audio_rate = 48000 ∧
    (session_unload (cb_music_delivery State.initial 48000 1).2).1.g_audio_rate = 48000 ∧
    ¬ ((session_unload (cb_music_delivery State.initial 48000 1).2).1.g_audio_time = 0 ∧
       (session_unload (cb_music_delivery State.initial 48000 1).2).1.g_audio_samples = 0 ∧
       (session_unload (cb_music_delivery State.initial 48000 1).2).1.g_audio_rate = 44100) := by
  decide

/-! ## Callback registry -/

theorem session_add_callback_scan_iff (l : List session_callback) (func user_data : Ptr) :
    session_add_callback_scan l func user_data = true ↔
      ({ func := func, user_data := user_data } : session_callback) ∈ l := by
  induction l with
  | nil => simp [session_add_callback_scan]
  | cons scb next ih =>
    rcases scb with ⟨f, u⟩
    by_cases h : f = func ∧ u = user_data
    · obtain ⟨rfl, rfl⟩ := h
      simp [session_add_callback_scan]
    · have hne : ({ func := func, user_data := user_data } : session_callback) ≠ ⟨f, u⟩ := by
        intro he
        injection he with h1 h2
        exact h ⟨h1.symm, h2.symm⟩
      simp [session_add_callback_scan, h, ih, hne]

theorem session_add_callback_absent (st : State) (func user_data : Ptr)
    (h : ({ func := func, user_data := user_data } : session_callback) ∉ st.g_session_callbacks) :
    session_add_callback st func user_data =
      (true, { st with g_session_callbacks :=
                        { func := func, user_data := user_data } :: st.g_session_callbacks }) := by
  have hs : session_add_callback_scan st.g_session_callbacks func user_data = false := by
    rw [Bool.eq_false_iff]
    intro ht
    exact h ((session_add_callback_scan_iff _ _ _).1 ht)
  simp [session_add_callback, hs]

theorem session_add_callback_present (st : State) (func user_data : Ptr)
    (h : ({ func := func, user_data := user_data } : session_callback) ∈ st.g_session_callbacks) :
    session_add_callback st func user_data = (false, st) := by
  have hs := (session_add_callback_scan_iff _ _ _).2 h
  simp [session_add_callback, hs]

/-- C4: `session_add_callback` returns `TRUE` and puts the pair at the head of
the registry when no entry has the same `func` and the same `user_data`, and
returns `FALSE` leaving the state as it is when one has; so from a registry
without the pair, adding it twice returns `TRUE` then `FALSE`, and after
adding `(func, user_data)` a pair that differs from it in one component is
still added when the registry did not hold it before. -/
theorem C4_add_callback (st : State) (func user_data : Ptr) :
    (({ func := func, user_data := user_data } : session_callback) ∉ st.g_session_callbacks →
      session_add_callback st func user_data =
        (true, { st with g_session_callbacks :=
                          { func := func, user_data := user_data } :: st.g_session_callbacks })) ∧
    (({ func := func, user_data := user_data } : session_callback) ∈ st.g_session_callbacks →
      session_add_callback st func user_data = (false, st)) ∧
    (({ func := func, user_data := user_data } : session_callback) ∉ st.g_session_callbacks →
      (session_add_callback st func user_data).1 = true ∧
      session_add_callback (session_add_callback st func user_data).2 func user_data =
        (false, (session_add_callback st func user_data).2)) ∧
    (session_add_callback (session_add_callback st func user_data).2 func user_data).1 = false ∧
    (∀ other : Ptr, other ≠ user_data →
      ({ func := func, user_data := other } : session_callback) ∉ st.g_session_callbacks →
      (session_add_callback (session_add_callback st func user_data).2 func other).1 = true) ∧
    (∀ other : Ptr, other ≠ func →
      ({ func := other, user_data := user_data } : session_callback) ∉ st.g_session_callbacks →
      (session_add_callback (session_add_callback st func user_data).2 other user_data).1
        = true) := by
  have hin : ({ func := func, user_data := user_data } : session_callback) ∈
      (session_add_callback st func user_data).2.g_session_callbacks := by
    by_cases h : ({ func := func, user_data := user_data } : session_callback) ∈
        st.g_session_callbacks
    · rw [session_add_callback_present st func user_data h]
      exact h
    · rw [session_add_callback_absent st func user_data h]
      exact List.mem_cons_self _ _
  have hsub : ∀ q : session_callback, q ≠ { func := func, user_data := user_data } →
      q ∉ st.g_session_callbacks →
      q ∉ (session_add_callback st func user_data).2.g_session_callbacks := by
    intro q hq hnot
    by_cases h : ({ func := func, user_data := user_data } : session_callback) ∈
        st.g_session_callbacks
    · rw [session_add_callback_present st func user_data h]
      exact hnot
    · rw [session_add_callback_absent st func user_data h]
      intro hmem
      rcases List.mem_cons.1 hmem with hmem | hmem
      · exact hq hmem
      · exact hnot hmem
  refine ⟨session_add_callback_absent st func user_data,
    session_add_callback_present st func user_data, ?_, ?_, ?_, ?_⟩
  · intro h
    refine ⟨?_, session_add_callback_present _ func user_data hin⟩
    rw [session_add_callback_absent st func user_data h]
  · rw [session_add_callback_present _ func user_data hin]
  · intro other hne hnot
    have hq : ({ func := func, user_data := other } : session_callback) ≠
        { func := func, user_data := user_data } := by
      intro he
      injection he with _ h2
      exact hne h2
    rw [session_add_callback_absent _ func other (hsub _ hq hnot)]
  · intro other hne hnot
    have hq : ({ func := other, user_data := user_data } : session_callback) ≠
        { func := func, user_data := user_data } := by
      intro he
      injection he with h1 _
      exact hne h1
    rw [session_add_callback_absent _ other user_data (hsub _ hq hnot)]

/-- C4 on the empty registry: the pair `(7, 3)` is added, then found present. -/
theorem C4_add_callback_witness :
    (session_add_callback State.initial 7 3).1 = true ∧
    session_add_callback (session_add_callback State.initial 7 3).2 7 3 =
      (false, (session_add_callback State.initial 7 3).2) :=
  (C4_add_callback State.initial 7 3).2.2.1 (by decide)

theorem g_list_foreach_call (l : List session_callback) (scbd : session_callback_data) :
    g_list_foreach l session_call_callback scbd = l.map (callback_of scbd) := by
  induction l with
  | nil => rfl
  | cons p rest ih =>
    simp [g_list_foreach, session_call_callback, callback_of, ih]

theorem callback_of_injective (scbd : session_callback_data) :
    Function.Injective (callback_of scbd) := by
  intro p q h
  rcases p with ⟨f, u⟩
  rcases q with ⟨g, v⟩
  simp only [callback_of, Effect.callback.injEq] at h
  obtain ⟨h1, _, _, h4⟩ := h
  rw [h1, h4]

/-- What a run of `session_add_callback` calls does to a registry: the
subscriptions made are stacked on it, latest first; none is made twice, none
was there before, and every pair of the run ends up in the registry. -/
theorem add_callbacks_registry :
    ∀ (ps : List session_callback) (st : State),
      (add_callbacks st ps).g_session_callbacks =
        (add_callbacks_log st ps).reverse ++ st.g_session_callbacks ∧
      (add_callbacks_log st ps).Nodup ∧
      (∀ p ∈ add_callbacks_log st ps, p ∉ st.g_session_callbacks ∧ p ∈ ps) ∧
      (∀ p ∈ ps, p ∈ add_callbacks_log st ps ∨ p ∈ st.g_session_callbacks) := by
  intro ps
  induction ps with
  | nil =>
    intro st
    simp [add_callbacks, add_callbacks_log]
  | cons p rest ih =>
    intro st
    have hstep : add_callbacks st (p :: rest) =
        add_callbacks (session_add_callback st p.func p.user_data).2 rest := rfl
    have hlog : add_callbacks_log st (p :: rest) =
        (if (session_add_callback st p.func p.user_data).1 then [p] else []) ++
          add_callbacks_log (session_add_callback st p.func p.user_data).2 rest := rfl
    have hp : ({ func := p.func, user_data := p.user_data } : session_callback) = p := rfl
    by_cases hmem : p ∈ st.g_session_callbacks
    · have hr := session_add_callback_present st p.func p.user_data (by rw [hp]; exact hmem)
      rw [hstep, hlog, hr]
      obtain ⟨h1, h2, h3, h4⟩ := ih st
      refine ⟨by simpa using h1, by simpa using h2, ?_, ?_⟩
      · intro q hq
        have hq2 : q ∈ add_callbacks_log st rest := by simpa using hq
        exact ⟨(h3 q hq2).1, List.mem_cons_of_mem _ (h3 q hq2).2⟩
      · intro q hq
        rcases List.mem_cons.1 hq with rfl | hq
        · exact Or.inr hmem
        · rcases h4 q hq with h | h
          · exact Or.inl (by simpa using h)
          · exact Or.inr h
    · have hr := session_add_callback_absent st p.func p.user_data (by rw [hp]; exact hmem)
      rw [hp] at hr
      rw [hstep, hlog, hr]
      obtain ⟨h1, h2, h3, h4⟩ := ih { st with g_session_callbacks := p :: st.g_session_callbacks }
      simp only [if_true, List.singleton_append]
      refine ⟨?_, ?_, ?_, ?_⟩
      · rw [h1]
        simp
      · refine List.nodup_cons.2 ⟨?_, h2⟩
        intro hin
        exact (h3 p hin).1 (List.mem_cons_self _ _)
      · intro q hq
        rcases List.mem_cons.1 hq with rfl | hq
        · exact ⟨hmem, List.mem_cons_self _ _⟩
        · refine ⟨?_, List.mem_cons_of_mem _ (h3 q hq).2⟩
          intro hin
          exact (h3 q hq).1 (List.mem_cons_of_mem _ hin)
      · intro q hq
        rcases List.mem_cons.1 hq with rfl | hq
        · exact Or.inl (List.mem_cons_self _ _)
        · rcases h4 q hq with h | h
          · exact Or.inl (List.mem_cons_of_mem _ h)
          · rcases List.mem_cons.1 h with rfl | h
            · exact Or.inl (List.mem_cons_self _ _)
            · exact Or.inr h

/-- C5: in a registry built from the empty one by any run `ps` of
`session_add_callback` calls, one dispatch calls the subscriptions made, latest
first, each with `(type, data, its user_data)`: the calls are those of the
subscription log read backwards, the log has no pair twice and holds exactly
the pairs of `ps`, every pair of `ps` is called exactly once and nothing
else is called. `session_unload` starts with this dispatch and `session_load`
makes it right after loading the track. -/
theorem C5_dispatch_each_once (st : State) (hempty : st.g_session_callbacks = [])
    (ps : List session_callback) (scbd : session_callback_data) :
    dispatch (add_callbacks st ps) scbd =
      (add_callbacks_log st ps).reverse.map
        (fun p => Effect.callback p.func scbd.type scbd.data p.user_data) ∧
    (add_callbacks_log st ps).Nodup ∧
    (∀ p, p ∈ add_callbacks_log st ps ↔ p ∈ ps) ∧
    (∀ p ∈ ps, (dispatch (add_callbacks st ps) scbd).count
        (Effect.callback p.func scbd.type scbd.data p.user_data) = 1) ∧
    (∀ e ∈ dispatch (add_callbacks st ps) scbd,
        ∃ p ∈ ps, e = Effect.callback p.func scbd.type scbd.data p.user_data) ∧
    (dispatch (add_callbacks st ps) scbd).length = (add_callbacks_log st ps).length ∧
    (session_unload (add_callbacks st ps)).2 =
      dispatch (add_callbacks st ps)
          { type := session_callback_type.SPOP_SESSION_UNLOAD, data := NULL }
        ++ [Effect.sp_session_player_play false, Effect.g_audio_delivery_func_flush,
            Effect.sp_session_player_unload] ∧
    (∀ track : Ptr, (session_load (add_callbacks st ps) track true).map Prod.snd =
      some ([Effect.sp_session_player_load track]
        ++ dispatch (add_callbacks st ps)
            { type := session_callback_type.SPOP_SESSION_LOAD, data := track })) := by
  obtain ⟨h1, h2, h3, h4⟩ := add_callbacks_registry ps st
  rw [hempty, List.append_nil] at h1
  have hd : dispatch (add_callbacks st ps) scbd =
      (add_callbacks_log st ps).reverse.map (callback_of scbd) := by
    rw [dispatch, g_list_foreach_call, h1]
  have hmem : ∀ p, p ∈ add_callbacks_log st ps ↔ p ∈ ps := by
    intro p
    constructor
    · intro h
      exact (h3 p h).2
    · intro h
      rcases h4 p h with h | h
      · exact h
      · rw [hempty] at h
        exact absurd h (List.not_mem_nil _)
  have hnd : ((add_callbacks_log st ps).reverse.map (callback_of scbd)).Nodup :=
    (List.nodup_reverse.2 h2).map (callback_of_injective scbd)
  refine ⟨hd, h2, hmem, ?_, ?_, ?_, rfl, fun _ => rfl⟩
  · intro p hp
    rw [hd]
    apply List.count_eq_one_of_mem hnd
    exact List.mem_map.2 ⟨p, List.mem_reverse.2 ((hmem p).2 hp), rfl⟩
  · intro e he
    rw [hd] at he
    obtain ⟨p, hp, rfl⟩ := List.mem_map.1 he
    exact ⟨p, (hmem p).1 (List.mem_reverse.1 hp), rfl⟩
  · rw [hd]
    simp

/-- C5 at a concrete run: `(1, 10)`, `(2, 10)`, `(1, 10)` again, `(1, 11)`; an
unload dispatch calls `(1, 11)`, `(2, 10)`, `(1, 10)`, in that order. -/
theorem C5_dispatch_each_once_witness :
    dispatch (add_callbacks State.initial [⟨1, 10⟩, ⟨2, 10⟩, ⟨1, 10⟩, ⟨1, 11⟩])
        ⟨session_callback_type.SPOP_SESSION_UNLOAD, NULL⟩ =
      [Effect.callback 1 session_callback_type.SPOP_SESSION_UNLOAD NULL 11,
       Effect.callback 2 session_callback_type.SPOP_SESSION_UNLOAD NULL 10,
       Effect.callback 1 session_callback_type.SPOP_SESSION_UNLOAD NULL 10] :=
  (C5_dispatch_each_once State.initial rfl [⟨1, 10⟩, ⟨2, 10⟩, ⟨1, 10⟩, ⟨1, 11⟩]
    ⟨session_callback_type.SPOP_SESSION_UNLOAD, NULL⟩).1.trans (by decide)

/-! ## Playlist management -/

/-- Once the starred playlist is cached, a run of `playlist_get` calls creates
nothing, keeps the cache, and answers every `nb = 0` with the cached handle
and every other `nb` with container entry `nb - 1`. -/
theorem playlist_get_all_cached (container_playlist : Int → Ptr) :
    ∀ (calls : List (Int × Ptr)) (st : State), st.g_starred_playlist ≠ NULL →
      (playlist_get_all st container_playlist calls).2.1 = st ∧
      (playlist_get_all st container_playlist calls).2.2 = [] ∧
      (playlist_get_all st container_playlist calls).1 =
        calls.map (fun c => if c.1 = 0 then st.g_starred_playlist
                            else container_playlist (c.1 - 1)) := by
  intro calls
  induction calls with
  | nil =>
    intro st _
    simp [playlist_get_all]
  | cons c rest ih =>
    intro st hst
    rcases c with ⟨nb, created⟩
    have hget : playlist_get st nb created container_playlist =
        (if nb = 0 then st.g_starred_playlist else container_playlist (nb - 1), st, []) := by
      by_cases hnb : nb = 0
      · simp [playlist_get, hnb, hst]
      · simp [playlist_get, hnb]
    obtain ⟨h1, h2, h3⟩ := ih st hst
    simp only [playlist_get_all, hget, h1, h2, h3]
    simp

/-- Over any run of `playlist_get` calls in which libspotify hands out a handle
whenever it is asked to create the starred playlist: it is asked at most
once, every `nb = 0` is answered with the handle that is cached at the end,
which is not `NULL`, and every other `nb` with container entry `nb - 1`. -/
theorem playlist_get_all_spec (container_playlist : Int → Ptr) :
    ∀ (calls : List (Int × Ptr)) (st : State),
      (∀ c ∈ calls, c.1 = 0 → c.2 ≠ NULL) →
      (playlist_get_all st container_playlist calls).2.2.count Effect.sp_session_starred_create
        ≤ 1 ∧
      (st.g_starred_playlist ≠ NULL →
        (playlist_get_all st container_playlist calls).2.1.g_starred_playlist
          = st.g_starred_playlist) ∧
      (playlist_get_all st container_playlist calls).1 =
        calls.map (fun c =>
          if c.1 = 0 then
            (playlist_get_all st container_playlist calls).2.1.g_starred_playlist
          else container_playlist (c.1 - 1)) ∧
      ((∃ c ∈ calls, c.1 = 0) →
        (playlist_get_all st container_playlist calls).2.1.g_starred_playlist ≠ NULL) := by
  intro calls
  induction calls with
  | nil =>
    intro st _
    simp [playlist_get_all]
  | cons c rest ih =>
    intro st hcreate
    by_cases hst : st.g_starred_playlist = NULL
    · rcases c with ⟨nb, created⟩
      have hrest : ∀ c ∈ rest, c.1 = 0 → c.2 ≠ NULL :=
        fun c hc => hcreate c (List.mem_cons_of_mem _ hc)
      by_cases hnb : nb = 0
      · have hcr : created ≠ NULL := hcreate (nb, created) (List.mem_cons_self _ _) hnb
        have hget : playlist_get st nb created container_playlist =
            (created, { st with g_starred_playlist := created },
              [Effect.sp_session_starred_create]) := by
          simp [playlist_get, hnb, hst]
        obtain ⟨h1, h2, h3⟩ := playlist_get_all_cached container_playlist rest
          { st with g_starred_playlist := created } hcr
        simp only [playlist_get_all, hget, h1, h2, h3]
        refine ⟨by simp, fun h => absurd hst h, by simp [hnb], fun _ => hcr⟩
      · have hget : playlist_get st nb created container_playlist =
            (container_playlist (nb - 1), st, []) := by
          simp [playlist_get, hnb]
        obtain ⟨h1, h2, h3, h4⟩ := ih st hrest
        simp only [playlist_get_all, hget, List.nil_append]
        refine ⟨h1, h2, ?_, ?_⟩
        · rw [List.map_cons, ← h3]
          simp [hnb]
        · rintro ⟨c, hc, hc0⟩
          rcases List.mem_cons.1 hc with rfl | hc
          · exact absurd hc0 hnb
          · exact h4 ⟨c, hc, hc0⟩
    · obtain ⟨h1, h2, h3⟩ := playlist_get_all_cached container_playlist (c :: rest) st hst
      rw [h1, h2, h3]
      exact ⟨by simp, fun _ => rfl, rfl, fun _ => hst⟩

/-- A run of `playlist_get` calls none of which asks for index 0 makes no call
to libspotify and leaves the state as it is. -/
theorem playlist_get_all_no_zero (container_playlist : Int → Ptr) :
    ∀ (calls : List (Int × Ptr)) (st : State), (∀ p ∈ calls, p.1 ≠ 0) →
      (playlist_get_all st container_playlist calls).2.1 = st ∧
      (playlist_get_all st container_playlist calls).2.2 = [] := by
  intro calls
  induction calls with
  | nil =>
    intro st _
    simp [playlist_get_all]
  | cons c rest ih =>
    intro st hnz
    rcases c with ⟨nb, created⟩
    have hnb : nb ≠ 0 := hnz (nb, created) (List.mem_cons_self _ _)
    have hget : playlist_get st nb created container_playlist =
        (container_playlist (nb - 1), st, []) := by
      simp [playlist_get, hnb]
    obtain ⟨h1, h2⟩ := ih st (fun p hp => hnz p (List.mem_cons_of_mem _ hp))
    simp only [playlist_get_all, hget, h1, h2]
    simp

/-- With nothing cached, the first `playlist_get(0)` of a run is the one call
to `sp_session_starred_create` of the whole run, and the handle that call
yields, when it is not `NULL`, is what the cache holds at the end. -/
theorem playlist_get_all_first_create (container_playlist : Int → Ptr) :
    ∀ (pre : List (Int × Ptr)) (st : State) (c : Ptr) (post : List (Int × Ptr)),
      st.g_starred_playlist = NULL → (∀ p ∈ pre, p.1 ≠ 0) → c ≠ NULL →
      (playlist_get_all st container_playlist (pre ++ (0, c) :: post)).2.1 =
        { st with g_starred_playlist := c } ∧
      (playlist_get_all st container_playlist (pre ++ (0, c) :: post)).2.2 =
        [Effect.sp_session_starred_create] := by
  intro pre
  induction pre with
  | nil =>
    intro st c post hst _ hc
    have hget : playlist_get st 0 c container_playlist =
        (c, { st with g_starred_playlist := c }, [Effect.sp_session_starred_create]) := by
      simp [playlist_get, hst]
    obtain ⟨h1, h2, _⟩ := playlist_get_all_cached container_playlist post
      { st with g_starred_playlist := c } hc
    simp only [List.nil_append, playlist_get_all, hget, h1, h2]
    simp
  | cons p rest ih =>
    intro st c post hst hnz hc
    rcases p with ⟨nb, created⟩
    have hnb : nb ≠ 0 := hnz (nb, created) (List.mem_cons_self _ _)
    have hget : playlist_get st nb created container_playlist =
        (container_playlist (nb - 1), st, []) := by
      simp [playlist_get, hnb]
    obtain ⟨h1, h2⟩ := ih st c post hst (fun q hq => hnz q (List.mem_cons_of_mem _ hq)) hc
    simp only [List.cons_append, playlist_get_all, hget, List.nil_append]
    exact ⟨h1, h2⟩

/-- C6, as amended: for a container of `K` playlists (with `K + 1` an `int`),
`playlists_len` returns `K + 1`. `playlist_get(0)` returns the starred-playlist
handle: the cached `g_starred_playlist` when that is not `NULL`, without any
call to libspotify, and otherwise the handle `sp_session_starred_create`
yields in the one call made, which is stored in `g_starred_playlist`. Over
any run of `playlist_get` calls in which `sp_session_starred_create` yields a
handle that is not `NULL` whenever it is called, it is called at most once
(exactly once when nothing was cached and index 0 is asked for, not at all
when a handle was cached or index 0 is never asked for) and every
`playlist_get(0)` returns the one cached handle, which is the handle that
call yielded or the handle cached before. `playlist_get(nb)` for `nb ≥ 1`
returns container entry `nb - 1`, so `playlist_get(1)` is entry 0. -/
theorem C6_playlist_indexing (st : State) (K : Nat) (hK : K < 2147483647)
    (container_playlist : Int → Ptr) (calls : List (Int × Ptr))
    (hcreate : ∀ c ∈ calls, c.1 = 0 → c.2 ≠ NULL) :
    playlists_len (K : Int) = (K : Int) + 1 ∧
    (playlist_get_all st container_playlist calls).2.2.count Effect.sp_session_starred_create
      ≤ 1 ∧
    (∀ x ∈ calls.zip (playlist_get_all st container_playlist calls).1, x.1.1 = 0 →
      x.2 = (playlist_get_all st container_playlist calls).2.1.g_starred_playlist ∧
      x.2 ≠ NULL) ∧
    (∀ x ∈ calls.zip (playlist_get_all st container_playlist calls).1, 1 ≤ x.1.1 →
      x.2 = container_playlist (x.1.1 - 1)) ∧
    (playlist_get_all st container_playlist calls).1.length = calls.length ∧
    (st.g_starred_playlist ≠ NULL → ∀ created,
      playlist_get st 0 created container_playlist = (st.g_starred_playlist, st, [])) ∧
    (∀ nb created, 1 ≤ nb →
      playlist_get st nb created container_playlist = (container_playlist (nb - 1), st, [])) ∧
    (∀ created, (playlist_get st 1 created container_playlist).1 = container_playlist 0) ∧
    (st.g_starred_playlist = NULL → ∀ created,
      playlist_get st 0 created container_playlist =
        (created, { st with g_starred_playlist := created },
          [Effect.sp_session_starred_create])) ∧
    (st.g_starred_playlist = NULL →
      ∀ (pre : List (Int × Ptr)) (c : Ptr) (post : List (Int × Ptr)),
        calls = pre ++ (0, c) :: post → (∀ p ∈ pre, p.1 ≠ 0) →
        (playlist_get_all st container_playlist calls).2.1 =
          { st with g_starred_playlist := c } ∧
        (playlist_get_all st container_playlist calls).2.2 =
          [Effect.sp_session_starred_create] ∧
        (∀ x ∈ calls.zip (playlist_get_all st container_playlist calls).1, x.1.1 = 0 →
          x.2 = c)) ∧
    (st.g_starred_playlist ≠ NULL →
      (playlist_get_all st container_playlist calls).2.1 = st ∧
      (playlist_get_all st container_playlist calls).2.2 = [] ∧
      (∀ x ∈ calls.zip (playlist_get_all st container_playlist calls).1, x.1.1 = 0 →
        x.2 = st.g_starred_playlist)) ∧
    ((∀ p ∈ calls, p.1 ≠ 0) →
      (playlist_get_all st container_playlist calls).2.1 = st ∧
      (playlist_get_all st container_playlist calls).2.2 = []) := by
  obtain ⟨h1, h2, h3, h4⟩ := playlist_get_all_spec container_playlist calls st hcreate
  have hzip : ∀ x ∈ calls.zip (playlist_get_all st container_playlist calls).1,
      x.1 ∈ calls ∧
      x.2 = (if x.1.1 = 0 then
               (playlist_get_all st container_playlist calls).2.1.g_starred_playlist
             else container_playlist (x.1.1 - 1)) := by
    intro x hx
    rw [h3, List.zip_map_right] at hx
    obtain ⟨y, hy, rfl⟩ := List.mem_map.1 hx
    obtain ⟨hy1, hy2⟩ := List.of_mem_zip hy
    have hyy : y.1 = y.2 := by
      have := List.mem_iff_get.1 hy
      obtain ⟨n, hn⟩ := this
      rw [← hn]
      simp [List.zip_eq_zipWith]
    refine ⟨hy1, ?_⟩
    simp only [Prod.map_fst, Prod.map_snd, id_eq]
    rw [hyy]
  have hzero : ∀ x ∈ calls.zip (playlist_get_all st container_playlist calls).1, x.1.1 = 0 →
      x.2 = (playlist_get_all st container_playlist calls).2.1.g_starred_playlist := by
    intro x hx h0
    obtain ⟨_, hval⟩ := hzip x hx
    rw [if_pos h0] at hval
    exact hval
  refine ⟨?_, h1, ?_, ?_, ?_, ?_, ?_, ?_, ?_, ?_, ?_, ?_⟩
  · unfold playlists_len
    rw [toU32_of_range _ (by omega) (by omega), toI32_of_small _ (by omega)]
    omega
  · intro x hx h0
    obtain ⟨hmem, _⟩ := hzip x hx
    have hval := hzero x hx h0
    exact ⟨hval, hval ▸ h4 ⟨x.1, hmem, h0⟩⟩
  · intro x hx h1le
    obtain ⟨_, hval⟩ := hzip x hx
    rw [if_neg (by omega)] at hval
    exact hval
  · rw [h3]
    simp
  · intro hst created
    simp [playlist_get, hst]
  · intro nb created hnb
    have : nb ≠ 0 := by omega
    simp [playlist_get, this]
  · intro created
    simp [playlist_get]
  · intro hst created
    simp [playlist_get, hst]
  · intro hst pre c post hcalls hpre
    have hc : c ≠ NULL := hcreate (0, c) (by rw [hcalls]; simp) rfl
    obtain ⟨g1, g2⟩ := playlist_get_all_first_create container_playlist pre st c post hst hpre hc
    rw [← hcalls] at g1 g2
    refine ⟨g1, g2, ?_⟩
    intro x hx h0
    rw [hzero x hx h0, g1]
  · intro hst
    obtain ⟨g1, g2, _⟩ := playlist_get_all_cached container_playlist calls st hst
    refine ⟨g1, g2, ?_⟩
    intro x hx h0
    rw [hzero x hx h0, g1]
  · intro hnz
    exact playlist_get_all_no_zero container_playlist calls st hnz

/-- C6 at a concrete run from the initial state: `playlist_get` of 0, 2, 0, 1
over a container whose entry `i` has handle `100 + i`; libspotify is asked
once, creates the starred playlist with handle 9, and the handles returned
are 9, 101, 9 and 100. -/
theorem C6_playlist_indexing_witness :
    playlists_len ((3 : Nat) : Int) = ((3 : Nat) : Int) + 1 ∧
    (playlist_get_all State.initial (fun i => (100 + i).toNat)
      [(0, 9), (2, 9), (0, 8), (1, 8)]).2.1 = { State.initial with g_starred_playlist := 9 } ∧
    (playlist_get_all State.initial (fun i => (100 + i).toNat)
      [(0, 9), (2, 9), (0, 8), (1, 8)]).2.2 = [Effect.sp_session_starred_create] ∧
    (playlist_get_all State.initial (fun i => (100 + i).toNat)
      [(0, 9), (2, 9), (0, 8), (1, 8)]).1 = [9, 101, 9, 100] :=
  have h := C6_playlist_indexing State.initial 3 (by decide) (fun i => (100 + i).toNat)
    [(0, 9), (2, 9), (0, 8), (1, 8)] (by decide)
  have hb := h.2.2.2.2.2.2.2.2.2.1 rfl [] 9 [(2, 9), (0, 8), (1, 8)] rfl (by decide)
  ⟨h.1, hb.1, hb.2.1, by decide⟩

/-- C6 as stated fails: when `sp_session_starred_create` yields `NULL` on the
first `playlist_get(0)` and the handle 9 on the second, nothing is cached by
the first call, libspotify is asked to create the starred playlist twice,
and the two `playlist_get(0)` return different values, `NULL` and 9. -/
theorem C6_counterexample :
    (playlist_get_all State.initial (fun i => (100 + i).toNat) [(0, NULL), (0, 9)]).1
      = [NULL, 9] ∧
    (playlist_get_all State.initial (fun i => (100 + i).toNat) [(0, NULL), (0, 9)]).2.2
      = [Effect.sp_session_starred_create, Effect.sp_session_starred_create] ∧
    ¬ ((playlist_get_all State.initial (fun i => (100 + i).toNat)
          [(0, NULL), (0, 9)]).2.2.count Effect.sp_session_starred_create ≤ 1) ∧
    (playlist_get State.initial 0 NULL (fun i => (100 + i).toNat)).1 ≠
      (playlist_get (playlist_get State.initial 0 NULL (fun i => (100 + i).toNat)).2.1 0 9
        (fun i => (100 + i).toNat)).1 := by
  decide

/-! ## Track metadata: the artist string -/

theorem track_get_data_join_go (art : List sp_artist) :
    ∀ (i : Nat) (tmp : String), i ≠ 0 →
      (track_get_data_join art i tmp).1 = String.intercalate.go tmp ", " (art.map artist_text) := by
  induction art with
  | nil =>
    intro i tmp _
    rfl
  | cons a rest ih =>
    intro i tmp hi
    simp only [track_get_data_join, if_pos hi, List.map_cons, String.intercalate.go]
    rw [ih (i + 1) _ (Nat.succ_ne_zero i)]
    rfl

theorem track_get_data_join_text (art : List sp_artist) :
    (track_get_data_join art 0 "").1 = ", ".intercalate (art.map artist_text) := by
  cases art with
  | nil => rfl
  | cons a rest =>
    simp only [track_get_data_join, List.map_cons, String.intercalate, ne_eq,
      not_true_eq_false, if_false, String.empty_append]
    rw [track_get_data_join_go rest 1 _ (by decide)]
    rfl

theorem track_get_data_join_releases (art : List sp_artist) :
    ∀ (i : Nat) (tmp : String),
      (track_get_data_join art i tmp).2 = art.map (fun a => Effect.sp_artist_release a.handle) := by
  induction art with
  | nil =>
    intro i tmp
    rfl
  | cons a rest ih =>
    intro i tmp
    simp only [track_get_data_join, List.map_cons, ih]

theorem track_get_data_add_refs_map (art : List sp_artist) :
    track_get_data_add_refs art = art.map (fun a => Effect.sp_artist_add_ref a.handle) := by
  induction art with
  | nil => rfl
  | cons a rest ih => simp only [track_get_data_add_refs, List.map_cons, ih]

theorem track_get_data_link_calls (track : sp_track) (r : String × List Effect)
    (h : track_get_data_link track = some r) :
    r.2 = [Effect.sp_link_create_from_track track.link.handle,
           Effect.sp_link_release track.link.handle] := by
  unfold track_get_data_link at h
  split at h
  · exact absurd h (by simp)
  · split at h
    · exact absurd h (by simp)
    · injection h with h
      rw [← h]

/-- The shape of every run of `track_get_data` on a loaded track that reaches no
`g_error`: the outputs and the calls made, in order. -/
theorem track_get_data_loaded (track : sp_track) (name artist album link duration malloc_ok : Bool)
    (out : TrackData) (fx : List Effect) (hloaded : track.is_loaded = true)
    (h : track_get_data track name artist album link duration malloc_ok = some (out, fx)) :
    out.name = (if name then some track.name else none) ∧
    out.artist = (if artist then some (", ".intercalate (track.artists.map artist_text))
                  else none) ∧
    out.album = (if album then
                   some (if track.album.is_loaded then track.album.name else "[album not loaded]")
                 else none) ∧
    out.duration = (if duration then some (Int.tdiv track.duration 1000) else none) ∧
    (link = false → out.link = none) ∧
    (link = true → out.link = track.link.as_string ∧ out.link ≠ none) ∧
    fx = [Effect.sp_track_add_ref track.handle]
          ++ (if artist then track.artists.map (fun a => Effect.sp_artist_add_ref a.handle)
              else [])
          ++ (if album then [Effect.sp_album_add_ref track.album.handle] else [])
          ++ (if link then [Effect.sp_link_create_from_track track.link.handle,
                            Effect.sp_link_release track.link.handle] else [])
          ++ (if artist then track.artists.map (fun a => Effect.sp_artist_release a.handle)
              else [])
          ++ (if album then [Effect.sp_album_release track.album.handle] else [])
          ++ [Effect.sp_track_release track.handle] := by
  unfold track_get_data at h
  rw [hloaded] at h
  simp only [Bool.not_true, Bool.false_eq_true, if_false] at h
  split at h
  · exact absurd h (by simp)
  · split at h
    · exact absurd h (by simp)
    · rename_i link_out link_fx hlink
      injection h with h
      injection h with hout hfx
      rw [track_get_data_join_text, track_get_data_join_releases,
        track_get_data_add_refs_map] at *
      have hl : (link = false → link_out = none ∧ link_fx = []) ∧
          (link = true → link_out = track.link.as_string ∧ link_out ≠ none ∧
            link_fx = [Effect.sp_link_create_from_track track.link.handle,
                       Effect.sp_link_release track.link.handle]) := by
        cases link with
        | false =>
          simp only [Bool.false_eq_true, if_false, Option.some.injEq, Prod.mk.injEq] at hlink
          exact ⟨fun _ => ⟨hlink.1.symm, hlink.2.symm⟩, fun hc => absurd hc (by simp)⟩
        | true =>
          simp only [if_true, Option.map_eq_some'] at hlink
          obtain ⟨r, hr, hr2⟩ := hlink
          have hcalls := track_get_data_link_calls track r hr
          injection hr2 with h1 h2
          refine ⟨fun hc => absurd hc (by simp), fun _ => ?_⟩
          refine ⟨?_, ?_, ?_⟩
          · rw [← h1]
            unfold track_get_data_link at hr
            split at hr
            · exact absurd hr (by simp)
            · split at hr
              · exact absurd hr (by simp)
              · rename_i str hs
                injection hr with hr
                rw [hs, ← hr]
          · rw [← h1]
            simp
          · rw [← h2, hcalls]
      rw [← hout, ← hfx]
      refine ⟨rfl, rfl, rfl, rfl, ?_, ?_, ?_⟩
      · intro hf
        exact (hl.1 hf).1
      · intro ht
        exact ⟨(hl.2 ht).1, (hl.2 ht).2.1⟩
      · cases link with
        | false => rw [(hl.1 rfl).2]; simp
        | true => rw [(hl.2 rfl).2.2]; simp

theorem track_get_data_unloaded (track : sp_track) (name artist album link duration malloc_ok : Bool)
    (hloaded : track.is_loaded = false) :
    track_get_data track name artist album link duration malloc_ok =
      some (TrackData.untouched,
            [Effect.sp_track_add_ref track.handle, Effect.sp_track_release track.handle]) := by
  simp [track_get_data, hloaded]

theorem track_get_data_isSome (track : sp_track) (name artist album link duration malloc_ok : Bool) :
    (track_get_data track name artist album link duration malloc_ok).isSome =
      track_get_data_no_error track artist link malloc_ok := by
  unfold track_get_data track_get_data_no_error track_get_data_link
  cases hl : track.is_loaded <;> cases artist <;> cases malloc_ok <;> cases link <;>
    simp <;>
    (by_cases hh : track.link.handle = NULL <;> cases hs : track.link.as_string <;> simp [hh, hs])

/-- C7: for a loaded track whose artist string is asked for, on every run of
`track_get_data` that reaches no `g_error` (and there is one as soon as the
artist array can be allocated and no link is asked for) the artist string is
the texts of the artists in enumeration order joined by ", ", a loaded
artist giving its name and an unloaded one "[artist not loaded]"; it is
empty for no artist, and with three artists of which one is unloaded it is
the two names and the placeholder, in order, separated by ", ". -/
theorem C7_artist_string (track : sp_track) (name album link duration malloc_ok : Bool)
    (out : TrackData) (fx : List Effect) (hloaded : track.is_loaded = true)
    (h : track_get_data track name true album link duration malloc_ok = some (out, fx)) :
    out.artist = some (", ".intercalate
      (track.artists.map (fun a => if a.is_loaded then a.name else "[artist not loaded]"))) ∧
    (track.artists = [] → out.artist = some "") ∧
    (∀ a0 a1 a2 : sp_artist, track.artists = [a0, a1, a2] →
      a0.is_loaded = false → a1.is_loaded = true → a2.is_loaded = true →
      out.artist = some ("[artist not loaded]" ++ ", " ++ a1.name ++ ", " ++ a2.name)) ∧
    (∀ a0 a1 a2 : sp_artist, track.artists = [a0, a1, a2] →
      a0.is_loaded = true → a1.is_loaded = false → a2.is_loaded = true →
      out.artist = some (a0.name ++ ", " ++ "[artist not loaded]" ++ ", " ++ a2.name)) ∧
    (∀ a0 a1 a2 : sp_artist, track.artists = [a0, a1, a2] →
      a0.is_loaded = true → a1.is_loaded = true → a2.is_loaded = false →
      out.artist = some (a0.name ++ ", " ++ a1.name ++ ", " ++ "[artist not loaded]")) ∧
    (malloc_ok = true →
      (track_get_data track name true album false duration malloc_ok).isSome = true) := by
  have hart := (track_get_data_loaded track name true album link duration malloc_ok out fx
    hloaded h).2.1
  simp only [if_true] at hart
  have hshape : ∀ a0 a1 a2 : sp_artist, track.artists = [a0, a1, a2] →
      out.artist = some (artist_text a0 ++ ", " ++ artist_text a1 ++ ", " ++ artist_text a2) := by
    intro a0 a1 a2 h3
    rw [hart, h3]
    rfl
  refine ⟨hart, ?_, ?_, ?_, ?_, ?_⟩
  · intro h0
    rw [hart, h0]
    rfl
  · intro a0 a1 a2 h3 l0 l1 l2
    rw [hshape a0 a1 a2 h3]
    simp [artist_text, l0, l1, l2]
  · intro a0 a1 a2 h3 l0 l1 l2
    rw [hshape a0 a1 a2 h3]
    simp [artist_text, l0, l1, l2]
  · intro a0 a1 a2 h3 l0 l1 l2
    rw [hshape a0 a1 a2 h3]
    simp [artist_text, l0, l1, l2]
  · intro hm
    rw [track_get_data_isSome]
    simp [track_get_data_no_error, hm]

/-- C7 at a concrete track: three artists, the second one not loaded, and only
the artist string asked for. -/
theorem C7_artist_string_witness :
    track_get_data
        { handle := 1, is_loaded := true, name := "Song"
          artists := [⟨11, true, "Ann"⟩, ⟨12, false, ""⟩, ⟨13, true, "Cid"⟩]
          album := ⟨20, true, "Album", none⟩
          link := ⟨30, some "spotify:track:1"⟩
          duration := 183500 }
        false true false false false true
      = some ({ name := none, artist := some "Ann, [artist not loaded], Cid", album := none,
                link := none, duration := none },
              [Effect.sp_track_add_ref 1, Effect.sp_artist_add_ref 11,
               Effect.sp_artist_add_ref 12, Effect.sp_artist_add_ref 13,
               Effect.sp_artist_release 11, Effect.sp_artist_release 12,
               Effect.sp_artist_release 13, Effect.sp_track_release 1]) ∧
    (some "Ann, [artist not loaded], Cid" : Option String) =
      some (", ".intercalate
        (([⟨11, true, "Ann"⟩, ⟨12, false, ""⟩, ⟨13, true, "Cid"⟩] : List sp_artist).map
          (fun a => if a.is_loaded then a.name else "[artist not loaded]"))) :=
  ⟨by decide,
   (C7_artist_string
    { handle := 1, is_loaded := true, name := "Song"
      artists := [⟨11, true, "Ann"⟩, ⟨12, false, ""⟩, ⟨13, true, "Cid"⟩]
      album := ⟨20, true, "Album", none⟩
      link := ⟨30, some "spotify:track:1"⟩
      duration := 183500 }
    false false false false true
    { name := none, artist := some "Ann, [artist not loaded], Cid", album := none,
      link := none, duration := none }
    [Effect.sp_track_add_ref 1, Effect.sp_artist_add_ref 11, Effect.sp_artist_add_ref 12,
     Effect.sp_artist_add_ref 13, Effect.sp_artist_release 11, Effect.sp_artist_release 12,
     Effect.sp_artist_release 13, Effect.sp_track_release 1]
    rfl (by decide)).1⟩

/-! ## Track metadata: reference accounting -/

theorem acquired_append (a b : List Effect) : acquired (a ++ b) = acquired a ++ acquired b := by
  simp [acquired, List.filterMap_append]

theorem released_append (a b : List Effect) : released (a ++ b) = released a ++ released b := by
  simp [released, List.filterMap_append]

theorem acquired_artist_add_refs (art : List sp_artist) :
    acquired (art.map (fun a => Effect.sp_artist_add_ref a.handle)) = art.map artist_ref := by
  induction art with
  | nil => rfl
  | cons a rest ih =>
    simp only [acquired, List.map_cons] at ih ⊢
    rw [List.filterMap_cons_some (by rfl : (Effect.sp_artist_add_ref a.handle).acquires
      = some (artist_ref a)), ih]

theorem released_artist_add_refs (art : List sp_artist) :
    released (art.map (fun a => Effect.sp_artist_add_ref a.handle)) = [] := by
  induction art with
  | nil => rfl
  | cons a rest ih =>
    simp only [released, List.map_cons] at ih ⊢
    rw [List.filterMap_cons_none (by rfl : (Effect.sp_artist_add_ref a.handle).releases = none),
      ih]

theorem acquired_artist_releases (art : List sp_artist) :
    acquired (art.map (fun a => Effect.sp_artist_release a.handle)) = [] := by
  induction art with
  | nil => rfl
  | cons a rest ih =>
    simp only [acquired, List.map_cons] at ih ⊢
    rw [List.filterMap_cons_none (by rfl : (Effect.sp_artist_release a.handle).acquires = none),
      ih]

theorem released_artist_releases (art : List sp_artist) :
    released (art.map (fun a => Effect.sp_artist_release a.handle)) = art.map artist_ref := by
  induction art with
  | nil => rfl
  | cons a rest ih =>
    simp only [released, List.map_cons] at ih ⊢
    rw [List.filterMap_cons_some (by rfl : (Effect.sp_artist_release a.handle).releases
      = some (artist_ref a)), ih]

theorem held_after_acquire (e : Effect) (rest : List Effect)
    (held : Multiset (HandleKind × Ptr)) (h : HandleKind × Ptr) (he : e.acquires = some h) :
    held_after (e :: rest) held = held_after rest (h ::ₘ held) := by
  simp only [held_after, he]

theorem held_after_release (e : Effect) (rest : List Effect)
    (held : Multiset (HandleKind × Ptr)) (h : HandleKind × Ptr) (ha : e.acquires = none)
    (hr : e.releases = some h) (hmem : h ∈ held) :
    held_after (e :: rest) held = held_after rest (held.erase h) := by
  simp only [held_after, ha, hr, hmem, if_true]

theorem held_after_artist_add_refs (art : List sp_artist) :
    ∀ (rest : List Effect) (held : Multiset (HandleKind × Ptr)),
      held_after (art.map (fun a => Effect.sp_artist_add_ref a.handle) ++ rest) held =
        held_after rest ((art.map artist_ref : Multiset (HandleKind × Ptr)) + held) := by
  induction art with
  | nil =>
    intro rest held
    simp
  | cons a tl ih =>
    intro rest held
    rw [List.map_cons, List.cons_append,
      held_after_acquire (Effect.sp_artist_add_ref a.handle) _ _ (artist_ref a) rfl, ih]
    congr 1
    rw [List.map_cons, ← Multiset.cons_coe, Multiset.cons_add, Multiset.add_cons]

theorem held_after_artist_releases (art : List sp_artist) :
    ∀ (rest : List Effect) (held : Multiset (HandleKind × Ptr)),
      held_after (art.map (fun a => Effect.sp_artist_release a.handle) ++ rest)
          ((art.map artist_ref : Multiset (HandleKind × Ptr)) + held) =
        held_after rest held := by
  induction art with
  | nil =>
    intro rest held
    simp
  | cons a tl ih =>
    intro rest held
    have hcons : ((List.map artist_ref (a :: tl) : List (HandleKind × Ptr)) :
        Multiset (HandleKind × Ptr)) + held
        = (HandleKind.artist, a.handle) ::ₘ ((tl.map artist_ref : Multiset (HandleKind × Ptr))
            + held) := by
      rw [List.map_cons, ← Multiset.cons_coe, Multiset.cons_add]
      rfl
    rw [hcons, List.map_cons, List.cons_append,
      held_after_release (Effect.sp_artist_release a.handle) _ _
        (HandleKind.artist, a.handle) rfl rfl
        (Multiset.mem_cons_self _ _),
      Multiset.erase_cons_head]
    exact ih rest held

theorem held_after_release_head (e : Effect) (rest : List Effect)
    (held : Multiset (HandleKind × Ptr)) (h : HandleKind × Ptr) (ha : e.acquires = none)
    (hr : e.releases = some h) :
    held_after (e :: rest) (h ::ₘ held) = held_after rest held := by
  rw [held_after_release e rest _ h ha hr (Multiset.mem_cons_self _ _), Multiset.erase_cons_head]

theorem acquired_cons (e : Effect) (l : List Effect) :
    acquired (e :: l) = e.acquires.toList ++ acquired l := by
  cases he : e.acquires with
  | none => simp [acquired, List.filterMap_cons_none he]
  | some h => simp [acquired, List.filterMap_cons_some he]

theorem released_cons (e : Effect) (l : List Effect) :
    released (e :: l) = e.releases.toList ++ released l := by
  cases he : e.releases with
  | none => simp [released, List.filterMap_cons_none he]
  | some h => simp [released, List.filterMap_cons_some he]

theorem acquired_nil : acquired [] = [] := rfl

theorem released_nil : released [] = [] := rfl

theorem perm_release_order {α : Type} (t : α) (a b l : List α) :
    (l ++ a ++ b ++ [t]).Perm (t :: (a ++ b ++ l)) := by
  have h1 : (l ++ a ++ b ++ [t]).Perm ([t] ++ (l ++ a ++ b)) := List.perm_append_comm
  have h2 : (l ++ a ++ b).Perm (a ++ b ++ l) := by
    rw [List.append_assoc]
    exact List.perm_append_comm
  exact h1.trans (List.Perm.cons t h2)

/-- The calls of `track_get_data` on a loaded track, whatever is asked for:
what is acquired, what is released, and that every release finds its
reference held. -/
theorem track_get_data_calls_balanced (t : Ptr) (art : List sp_artist) (alb lnk : Ptr)
    (artist album link : Bool) :
    acquired ([Effect.sp_track_add_ref t]
          ++ (if artist then art.map (fun a => Effect.sp_artist_add_ref a.handle) else [])
          ++ (if album then [Effect.sp_album_add_ref alb] else [])
          ++ (if link then [Effect.sp_link_create_from_track lnk, Effect.sp_link_release lnk]
              else [])
          ++ (if artist then art.map (fun a => Effect.sp_artist_release a.handle) else [])
          ++ (if album then [Effect.sp_album_release alb] else [])
          ++ [Effect.sp_track_release t])
      = (HandleKind.track, t) ::
          ((if artist then art.map artist_ref else [])
            ++ (if album then [(HandleKind.album, alb)] else [])
            ++ (if link then [(HandleKind.link, lnk)] else [])) ∧
    released ([Effect.sp_track_add_ref t]
          ++ (if artist then art.map (fun a => Effect.sp_artist_add_ref a.handle) else [])
          ++ (if album then [Effect.sp_album_add_ref alb] else [])
          ++ (if link then [Effect.sp_link_create_from_track lnk, Effect.sp_link_release lnk]
              else [])
          ++ (if artist then art.map (fun a => Effect.sp_artist_release a.handle) else [])
          ++ (if album then [Effect.sp_album_release alb] else [])
          ++ [Effect.sp_track_release t])
      = (if link then [(HandleKind.link, lnk)] else [])
          ++ (if artist then art.map artist_ref else [])
          ++ (if album then [(HandleKind.album, alb)] else [])
          ++ [(HandleKind.track, t)] ∧
    held_after ([Effect.sp_track_add_ref t]
          ++ (if artist then art.map (fun a => Effect.sp_artist_add_ref a.handle) else [])
          ++ (if album then [Effect.sp_album_add_ref alb] else [])
          ++ (if link then [Effect.sp_link_create_from_track lnk, Effect.sp_link_release lnk]
              else [])
          ++ (if artist then art.map (fun a => Effect.sp_artist_release a.handle) else [])
          ++ (if album then [Effect.sp_album_release alb] else [])
          ++ [Effect.sp_track_release t]) 0 = some 0 := by
  refine ⟨?_, ?_, ?_⟩
  · cases artist <;> cases album <;> cases link <;>
      simp [acquired_append, acquired_cons, acquired_nil, acquired_artist_add_refs,
        acquired_artist_releases, Effect.acquires]
  · cases artist <;> cases album <;> cases link <;>
      simp [released_append, released_cons, released_nil, released_artist_add_refs,
        released_artist_releases, Effect.releases]
  · have hT : held_after [Effect.sp_track_release t] ((HandleKind.track, t) ::ₘ 0) = some 0 := by
      rw [held_after_release_head (Effect.sp_track_release t) _ _ (HandleKind.track, t) rfl rfl]
      rfl
    have hlink : ∀ (rest : List Effect) (held : Multiset (HandleKind × Ptr)),
        held_after ((if link then [Effect.sp_link_create_from_track lnk,
            Effect.sp_link_release lnk] else []) ++ rest) held = held_after rest held := by
      intro rest held
      cases link
      · rfl
      · simp only [if_true, List.cons_append, List.nil_append]
        rw [held_after_acquire (Effect.sp_link_create_from_track lnk) _ _
            (HandleKind.link, lnk) rfl,
          held_after_release_head (Effect.sp_link_release lnk) _ _ (HandleKind.link, lnk) rfl rfl]
    rw [List.append_assoc, List.append_assoc, List.append_assoc, List.append_assoc,
      List.append_assoc, List.singleton_append,
      held_after_acquire (Effect.sp_track_add_ref t) _ _ (HandleKind.track, t) rfl]
    cases artist <;> cases album
    · simp only [Bool.false_eq_true, if_false, List.nil_append]
      rw [hlink]
      exact hT
    · simp only [Bool.false_eq_true, if_false, if_true, List.nil_append, List.singleton_append]
      rw [held_after_acquire (Effect.sp_album_add_ref alb) _ _ (HandleKind.album, alb) rfl,
        hlink,
        held_after_release_head (Effect.sp_album_release alb) _ _ (HandleKind.album, alb)
          rfl rfl]
      exact hT
    · simp only [Bool.false_eq_true, if_false, if_true, List.nil_append]
      rw [held_after_artist_add_refs, hlink, held_after_artist_releases]
      exact hT
    · simp only [if_true, List.singleton_append]
      rw [held_after_artist_add_refs,
        held_after_acquire (Effect.sp_album_add_ref alb) _ _ (HandleKind.album, alb) rfl,
        hlink, ← Multiset.add_cons, held_after_artist_releases,
        held_after_release_head (Effect.sp_album_release alb) _ _ (HandleKind.album, alb)
          rfl rfl]
      exact hT

/-- C8: on every run of `track_get_data` that reaches no `g_error`, whatever the
track and whatever fields are asked for, the references released are, up to
order, exactly the references taken (the track, each enumerated artist, the
album, the created link, as far as they were asked for), every release
finds its reference held, and every handle's reference count is what it was
before the call; when the track is not loaded the calls are one add-ref and
one release of the track and no output is written. -/
theorem C8_references_balanced (track : sp_track)
    (name artist album link duration malloc_ok : Bool) (out : TrackData) (fx : List Effect)
    (h : track_get_data track name artist album link duration malloc_ok = some (out, fx)) :
    (released fx).Perm (acquired fx) ∧
    (∀ k, refcount_delta fx k = 0) ∧
    held_after fx 0 = some 0 ∧
    acquired fx = (HandleKind.track, track.handle) ::
      ((if track.is_loaded && artist then track.artists.map artist_ref else [])
        ++ (if track.is_loaded && album then [(HandleKind.album, track.album.handle)] else [])
        ++ (if track.is_loaded && link then [(HandleKind.link, track.link.handle)] else [])) ∧
    (track.is_loaded = false →
      out = TrackData.untouched ∧
      fx = [Effect.sp_track_add_ref track.handle, Effect.sp_track_release track.handle]) ∧
    track_get_data_no_error track artist link malloc_ok = true := by
  have hne : track_get_data_no_error track artist link malloc_ok = true := by
    rw [← track_get_data_isSome track name artist album link duration malloc_ok, h]
    rfl
  have hbal : ∀ (a b l : Bool),
      fx = [Effect.sp_track_add_ref track.handle]
          ++ (if a then track.artists.map (fun x => Effect.sp_artist_add_ref x.handle) else [])
          ++ (if b then [Effect.sp_album_add_ref track.album.handle] else [])
          ++ (if l then [Effect.sp_link_create_from_track track.link.handle,
                         Effect.sp_link_release track.link.handle] else [])
          ++ (if a then track.artists.map (fun x => Effect.sp_artist_release x.handle) else [])
          ++ (if b then [Effect.sp_album_release track.album.handle] else [])
          ++ [Effect.sp_track_release track.handle] →
      (released fx).Perm (acquired fx) ∧
      (∀ k, refcount_delta fx k = 0) ∧
      held_after fx 0 = some 0 ∧
      acquired fx = (HandleKind.track, track.handle) ::
        ((if a then track.artists.map artist_ref else [])
          ++ (if b then [(HandleKind.album, track.album.handle)] else [])
          ++ (if l then [(HandleKind.link, track.link.handle)] else [])) := by
    intro a b l hfx
    obtain ⟨hacq, hrel, hheld⟩ := track_get_data_calls_balanced track.handle track.artists
      track.album.handle track.link.handle a b l
    rw [← hfx] at hacq hrel hheld
    have hperm : (released fx).Perm (acquired fx) := by
      rw [hacq, hrel]
      exact perm_release_order _ _ _ _
    refine ⟨hperm, ?_, hheld, hacq⟩
    intro k
    unfold refcount_delta
    have hc : (released fx).count k = (acquired fx).count k := hperm.countP_eq _
    rw [hc]
    omega
  cases hl : track.is_loaded with
  | false =>
    rw [track_get_data_unloaded track name artist album link duration malloc_ok hl] at h
    injection h with h
    injection h with hout hfx
    obtain ⟨h1, h2, h3, h4⟩ := hbal false false false (by rw [← hfx]; rfl)
    refine ⟨h1, h2, h3, ?_, fun _ => ⟨hout.symm, hfx.symm⟩, hne⟩
    rw [h4]
    simp
  | true =>
    have hshape := (track_get_data_loaded track name artist album link duration malloc_ok
      out fx hl h).2.2.2.2.2.2
    obtain ⟨h1, h2, h3, h4⟩ := hbal artist album link hshape
    refine ⟨h1, h2, h3, ?_, fun hc => absurd hc (by simp), hne⟩
    rw [h4]
    simp

/-- C8 at a concrete track with everything asked for: two artists, one of them
not loaded, an album and a link; ten calls, five references taken and given
back. -/
theorem C8_references_balanced_witness :
    track_get_data
        { handle := 1, is_loaded := true, name := "Song"
          artists := [⟨11, true, "Ann"⟩, ⟨12, false, ""⟩]
          album := ⟨20, true, "Album", none⟩
          link := ⟨30, some "spotify:track:1"⟩
          duration := 183500 }
        true true true true true true
      = some ({ name := some "Song", artist := some "Ann, [artist not loaded]",
                album := some "Album", link := some "spotify:track:1",
                duration := some 183 },
              [Effect.sp_track_add_ref 1, Effect.sp_artist_add_ref 11,
               Effect.sp_artist_add_ref 12, Effect.sp_album_add_ref 20,
               Effect.sp_link_create_from_track 30, Effect.sp_link_release 30,
               Effect.sp_artist_release 11, Effect.sp_artist_release 12,
               Effect.sp_album_release 20, Effect.sp_track_release 1]) ∧
    (released
      [Effect.sp_track_add_ref 1, Effect.sp_artist_add_ref 11, Effect.sp_artist_add_ref 12,
       Effect.sp_album_add_ref 20, Effect.sp_link_create_from_track 30,
       Effect.sp_link_release 30, Effect.sp_artist_release 11, Effect.sp_artist_release 12,
       Effect.sp_album_release 20, Effect.sp_track_release 1]).Perm
    (acquired
      [Effect.sp_track_add_ref 1, Effect.sp_artist_add_ref 11, Effect.sp_artist_add_ref 12,
       Effect.sp_album_add_ref 20, Effect.sp_link_create_from_track 30,
       Effect.sp_link_release 30, Effect.sp_artist_release 11, Effect.sp_artist_release 12,
       Effect.sp_album_release 20, Effect.sp_track_release 1]) :=
  ⟨by decide,
   (C8_references_balanced
    { handle := 1, is_loaded := true, name := "Song"
      artists := [⟨11, true, "Ann"⟩, ⟨12, false, ""⟩]
      album := ⟨20, true, "Album", none⟩
      link := ⟨30, some "spotify:track:1"⟩
      duration := 183500 }
    true true true true true true
    { name := some "Song", artist := some "Ann, [artist not loaded]", album := some "Album",
      link := some "spotify:track:1", duration := some 183 }
    [Effect.sp_track_add_ref 1, Effect.sp_artist_add_ref 11, Effect.sp_artist_add_ref 12,
     Effect.sp_album_add_ref 20, Effect.sp_link_create_from_track 30,
     Effect.sp_link_release 30, Effect.sp_artist_release 11, Effect.sp_artist_release 12,
     Effect.sp_album_release 20, Effect.sp_track_release 1]
    (by decide)).1⟩

/-! ## Cover image -/

/-- The three paths of `track_get_image_data` that reach no `g_error`, for a
track whose album is there and loaded: no cover, image not yet loaded, image
loaded. The album reference is given back on all three; the image is
released on the last one only. -/
theorem track_get_image_data_paths (track : sp_track) (halb : track.album.handle ≠ NULL)
    (hloaded : track.album.is_loaded = true) :
    (track.album.cover = none →
      track_get_image_data track =
        some (true, some { data := none, len := 0 },
          [Effect.sp_album_add_ref track.album.handle,
           Effect.sp_album_release track.album.handle])) ∧
    (∀ img, track.album.cover = some img → img.handle ≠ NULL → img.is_loaded = false →
      track_get_image_data track =
        some (false, none,
          [Effect.sp_album_add_ref track.album.handle, Effect.sp_image_create img.handle,
           Effect.sp_album_release track.album.handle])) ∧
    (∀ img bytes, track.album.cover = some img → img.handle ≠ NULL → img.is_loaded = true →
      img.data = some bytes →
      track_get_image_data track =
        some (true, some { data := some bytes, len := bytes.length },
          [Effect.sp_album_add_ref track.album.handle, Effect.sp_image_create img.handle,
           Effect.sp_album_release track.album.handle, Effect.sp_image_release img.handle])) := by
  refine ⟨?_, ?_, ?_⟩
  · intro hc
    simp [track_get_image_data, track_get_image, halb, hloaded, hc]
  · intro img hc hh hl
    simp [track_get_image_data, track_get_image, halb, hloaded, hc, hh, hl]
  · intro img bytes hc hh hl hd
    simp [track_get_image_data, track_get_image, halb, hloaded, hc, hh, hl, hd]

/-- C10 does not hold on the path that reports not-yet-loaded: for a track whose
loaded album has a cover and whose image is created but not yet loaded,
`track_get_image_data` returns `FALSE` after taking and releasing the album
and creating the image, and never releases the image: its reference count
is one higher after the call. Once the image is loaded the same call
releases it. -/
theorem C10_image_not_released_when_not_loaded :
    track_get_image_data
        { handle := 1, is_loaded := true, name := "Song", artists := []
          album := ⟨20, true, "Album", some ⟨40, false, none⟩⟩
          link := ⟨30, some "spotify:track:1"⟩, duration := 183500 }
      = some (false, none,
          [Effect.sp_album_add_ref 20, Effect.sp_image_create 40, Effect.sp_album_release 20]) ∧
    acquired [Effect.sp_album_add_ref 20, Effect.sp_image_create 40, Effect.sp_album_release 20]
      = [(HandleKind.album, 20), (HandleKind.image, 40)] ∧
    released [Effect.sp_album_add_ref 20, Effect.sp_image_create 40, Effect.sp_album_release 20]
      = [(HandleKind.album, 20)] ∧
    refcount_delta
        [Effect.sp_album_add_ref 20, Effect.sp_image_create 40, Effect.sp_album_release 20]
        (HandleKind.image, 40) = 1 ∧
    track_get_image_data
        { handle := 1, is_loaded := true, name := "Song", artists := []
          album := ⟨20, true, "Album", some ⟨40, true, some [255, 216]⟩⟩
          link := ⟨30, some "spotify:track:1"⟩, duration := 183500 }
      = some (true, some { data := some [255, 216], len := 2 },
          [Effect.sp_album_add_ref 20, Effect.sp_image_create 40, Effect.sp_album_release 20,
           Effect.sp_image_release 40]) := by
  decide

/-! ## Events management -/

theorem pending_timers_remove (st : State) (tag : Nat) :
    pending_timers (g_source_remove st tag) =
      (pending_timers st).filter (fun s => s.id != tag) := by
  simp only [pending_timers, g_source_remove, List.filter_filter]
  congr 1
  funext s
  exact Bool.and_comm _ _

theorem pending_timers_attach_idle (st : State) (func : GSourceFunc) :
    pending_timers (g_source_attach st none func).2 = pending_timers st := by
  simp [pending_timers, g_source_attach, List.filter_append]

theorem pending_timers_attach_timeout (st : State) (ms : Nat) :
    pending_timers (g_source_attach st (some ms) GSourceFunc.libspotify_event).2 =
      pending_timers st ++
        [{ id := st.next_source_id, interval := some ms, func := GSourceFunc.libspotify_event }] := by
  simp [pending_timers, g_source_attach, List.filter_append]

theorem process_events_loop_some (pre : List Int) (t : Int) (post : List Int)
    (hpre : ∀ d ∈ pre, d ≤ 1) (ht : 1 < t) :
    process_events_loop (pre ++ t :: post) = some t := by
  induction pre with
  | nil =>
    have : ¬ t ≤ 1 := by omega
    simp [process_events_loop, this]
  | cons d rest ih =>
    have hd : d ≤ 1 := hpre d (List.mem_cons_self _ _)
    simp only [List.cons_append, process_events_loop, if_pos hd]
    exact ih (fun x hx => hpre x (List.mem_cons_of_mem _ hx))

theorem process_events_loop_last (deadlines : List Int) (t : Int)
    (h : process_events_loop deadlines = some t) :
    1 < t ∧ ∃ pre post, deadlines = pre ++ t :: post ∧ ∀ d ∈ pre, d ≤ 1 := by
  induction deadlines with
  | nil => exact absurd h (by simp [process_events_loop])
  | cons d rest ih =>
    by_cases hd : d ≤ 1
    · simp only [process_events_loop, if_pos hd] at h
      obtain ⟨h1, pre, post, h2, h3⟩ := ih h
      refine ⟨h1, d :: pre, post, by rw [h2]; rfl, ?_⟩
      intro x hx
      rcases List.mem_cons.1 hx with rfl | hx
      · exact hd
      · exact h3 x hx
    · simp only [process_events_loop, if_neg hd] at h
      injection h with h
      subst h
      exact ⟨by omega, [], rest, rfl, fun _ hx => absurd hx (List.not_mem_nil _)⟩

theorem sched_inv_initial : sched_inv State.initial := by
  refine ⟨by decide, ?_, Or.inl rfl⟩
  intro s hs
  exact absurd hs (List.not_mem_nil _)

theorem sched_inv_attach_idle (st : State) (func : GSourceFunc) (h : sched_inv st) :
    sched_inv (g_source_attach st none func).2 := by
  obtain ⟨h1, h2, h3⟩ := h
  refine ⟨Nat.succ_pos _, ?_, ?_⟩
  · intro s hs
    simp only [g_source_attach, List.mem_append, List.mem_singleton] at hs ⊢
    rcases hs with hs | rfl
    · exact Nat.lt_succ_of_lt (h2 s hs)
    · exact Nat.lt_succ_self _
  · rw [pending_timers_attach_idle]
    rcases h3 with h3 | ⟨h4, h5, ms, h6⟩
    · exact Or.inl h3
    · exact Or.inr ⟨h4, Nat.lt_succ_of_lt h5, ms, h6⟩

theorem sched_inv_remove (st : State) (tag : Nat) (h : sched_inv st) :
    sched_inv (g_source_remove st tag) := by
  obtain ⟨h1, h2, h3⟩ := h
  refine ⟨h1, ?_, ?_⟩
  · intro s hs
    simp only [g_source_remove, List.mem_filter] at hs
    exact h2 s hs.1
  · rw [pending_timers_remove]
    rcases h3 with h3 | ⟨h4, h5, ms, h6⟩
    · left
      rw [h3]
      rfl
    · rw [h6]
      by_cases htag : st.evid = tag
      · left
        simp [htag]
      · right
        refine ⟨h4, h5, ms, ?_⟩
        simp [g_source_remove, htag]

/-- The first statement of `session_libspotify_event` leaves no timeout of
its own pending. -/
theorem pending_timers_after_remove (st : State) (h : sched_inv st) :
    pending_timers (session_libspotify_event_remove st) = [] := by
  obtain ⟨_, _, h3⟩ := h
  unfold session_libspotify_event_remove
  rcases h3 with h3 | ⟨h4, _, ms, h6⟩
  · split
    · rw [pending_timers_remove, h3]
      rfl
    · exact h3
  · rw [if_pos h4, pending_timers_remove, h6]
    simp

/-- One run of `session_libspotify_event` from a state of the invariant, when
libspotify reports `t > 1` after deadlines that are all at most 1. -/
theorem session_libspotify_event_arms (st : State) (h : sched_inv st) (deadlines : List Int)
    (t : Int) (hloop : process_events_loop deadlines = some t) :
    ∃ st1, session_libspotify_event st deadlines = some (false, st1) ∧
      pending_timers st1 =
        [{ id := st.next_source_id, interval := some (toU32 t),
           func := GSourceFunc.libspotify_event }] ∧
      st1.evid = st.next_source_id ∧
      st1.next_source_id = st.next_source_id + 1 ∧
      (∀ s ∈ pending_timers st, s ∉ st1.sources) ∧
      sched_inv st1 := by
  have hrm := pending_timers_after_remove st h
  have hnext : (session_libspotify_event_remove st).next_source_id = st.next_source_id := by
    unfold session_libspotify_event_remove
    split <;> rfl
  have hinv : sched_inv (session_libspotify_event_remove st) := by
    unfold session_libspotify_event_remove
    split
    · exact sched_inv_remove st _ h
    · exact h
  have hsrc : ∀ s ∈ (session_libspotify_event_remove st).sources,
      s ∈ st.sources ∧ (s.interval.isSome && (s.func == GSourceFunc.libspotify_event)) = false := by
    intro s hs
    have hmem : s ∈ st.sources := by
      unfold session_libspotify_event_remove at hs
      split at hs
      · simp only [g_source_remove, List.mem_filter] at hs
        exact hs.1
      · exact hs
    refine ⟨hmem, ?_⟩
    by_contra hc
    have hc2 : (s.interval.isSome && (s.func == GSourceFunc.libspotify_event)) = true := by
      simpa using hc
    have : s ∈ pending_timers (session_libspotify_event_remove st) :=
      List.mem_filter.2 ⟨hs, hc2⟩
    rw [hrm] at this
    exact absurd this (List.not_mem_nil _)
  refine ⟨{ (g_source_attach (session_libspotify_event_remove st) (some (toU32 t))
              GSourceFunc.libspotify_event).2 with
            evid := (g_source_attach (session_libspotify_event_remove st) (some (toU32 t))
              GSourceFunc.libspotify_event).1 }, ?_, ?_, ?_, ?_, ?_, ?_⟩
  · simp only [session_libspotify_event, hloop]
  · have := pending_timers_attach_timeout (session_libspotify_event_remove st) (toU32 t)
    rw [hrm, hnext, List.nil_append] at this
    exact this
  · exact hnext
  · simp only [g_source_attach, hnext]
  · intro s hs hmem
    have hs2 := List.mem_filter.1 hs
    simp only [g_source_attach, List.mem_append, List.mem_singleton] at hmem
    rcases hmem with hmem | hmem
    · have := (hsrc s hmem).2
      rw [hs2.2] at this
      exact absurd this (by simp)
    · have hlt := h.2.1 s hs2.1
      rw [hmem, hnext] at hlt
      exact absurd hlt (Nat.lt_irrefl _)
  · refine ⟨Nat.succ_pos _, ?_, Or.inr ⟨?_, ?_, toU32 t, ?_⟩⟩
    · intro s hs
      simp only [g_source_attach, List.mem_append, List.mem_singleton] at hs
      rcases hs with hs | rfl
      · exact Nat.lt_succ_of_lt (hinv.2.1 s hs)
      · exact Nat.lt_succ_self _
    · simp only [g_source_attach, hnext]
      exact h.1
    · simp only [g_source_attach]
      exact Nat.lt_succ_self _
    · have := pending_timers_attach_timeout (session_libspotify_event_remove st) (toU32 t)
      rw [hrm, List.nil_append] at this
      exact this

theorem session_libspotify_event_inv (st : State) (h : sched_inv st) (deadlines : List Int)
    (keep : Bool) (st1 : State) (hrun : session_libspotify_event st deadlines = some (keep, st1)) :
    keep = false ∧ sched_inv st1 ∧ (pending_timers st1).length = 1 := by
  cases hloop : process_events_loop deadlines with
  | none =>
    simp only [session_libspotify_event, hloop] at hrun
    exact absurd hrun (by simp)
  | some t =>
    obtain ⟨st2, h1, h2, _, _, _, h6⟩ := session_libspotify_event_arms st h deadlines t hloop
    rw [h1] at hrun
    injection hrun with hrun
    injection hrun with hk hs
    subst hs
    exact ⟨hk.symm, h6, by rw [h2]; rfl⟩

theorem g_main_dispatch_inv (st : State) (h : sched_inv st) (id : Nat) (deadlines : List Int)
    (st1 : State) (hrun : g_main_dispatch st id deadlines = some st1) : sched_inv st1 := by
  unfold g_main_dispatch at hrun
  split at hrun
  · injection hrun with hrun
    rw [← hrun]
    exact h
  · rename_i src _
    split at hrun
    · split at hrun
      · exact absurd hrun (by simp)
      · rename_i keep st2 hev
        obtain ⟨_, hinv, _⟩ := session_libspotify_event_inv st h deadlines keep st2 hev
        injection hrun with hrun
        rw [← hrun]
        split
        · exact hinv
        · exact sched_inv_remove st2 id hinv
    · injection hrun with hrun
      rw [← hrun]
      exact sched_inv_remove st id h

theorem sched_run_inv : ∀ (evs : List SchedEvent) (st st1 : State), sched_inv st →
    sched_run st evs = some st1 → sched_inv st1 := by
  intro evs
  induction evs with
  | nil =>
    intro st st1 h hrun
    injection hrun with hrun
    rw [← hrun]
    exact h
  | cons e rest ih =>
    intro st st1 h hrun
    simp only [sched_run] at hrun
    split at hrun
    · exact absurd hrun (by simp)
    · rename_i st2 hstep
      refine ih st2 st1 ?_ hrun
      cases e with
      | notify_main_thread =>
        injection hstep with hstep
        rw [← hstep]
        exact sched_inv_attach_idle st _ h
      | end_of_track =>
        injection hstep with hstep
        rw [← hstep]
        exact sched_inv_attach_idle st _ h
      | dispatch id deadlines =>
        exact g_main_dispatch_inv st h id deadlines st2 hstep

theorem pending_timers_le_one (st : State) (h : sched_inv st) :
    (pending_timers st).length ≤ 1 := by
  rcases h.2.2 with h3 | ⟨_, _, ms, h6⟩
  · rw [h3]
    exact Nat.zero_le _
  · rw [h6]
    exact Nat.le_refl _

/-- C9: in every state the scheduler reaches from the initial one by wake
requests, end-of-track notifications and GLib dispatches, at most one timeout
armed by `session_libspotify_event` is pending. A run of
`session_libspotify_event` there first leaves none pending; when libspotify
then reports deadlines of at most 1 followed by `t > 1`, the run returns
`FALSE` with exactly one timeout pending, a new one of delay `t`, and the
timeout that was pending before is gone; a second run right after it again
leaves exactly one pending, its own. A run that returns at all leaves
exactly one pending, and so does the dispatch GLib wraps around it. -/
theorem C9_single_pending_timer (evs : List SchedEvent) (st : State)
    (hrun : sched_run State.initial evs = some st) :
    (pending_timers st).length ≤ 1 ∧
    pending_timers (session_libspotify_event_remove st) = [] ∧
    (∀ (pre : List Int) (t : Int) (post : List Int),
      (∀ d ∈ pre, d ≤ 1) → 1 < t → t < 2147483648 →
      ∃ st1, session_libspotify_event st (pre ++ t :: post) = some (false, st1) ∧
        pending_timers st1 =
          [{ id := st.next_source_id, interval := some t.toNat,
             func := GSourceFunc.libspotify_event }] ∧
        st1.evid = st.next_source_id ∧
        (∀ s ∈ pending_timers st, s ∉ st1.sources) ∧
        (∀ (pre2 : List Int) (t2 : Int) (post2 : List Int),
          (∀ d ∈ pre2, d ≤ 1) → 1 < t2 → t2 < 2147483648 →
          ∃ st2, session_libspotify_event st1 (pre2 ++ t2 :: post2) = some (false, st2) ∧
            pending_timers st2 =
              [{ id := st1.next_source_id, interval := some t2.toNat,
                 func := GSourceFunc.libspotify_event }] ∧
            st1.next_source_id ≠ st.next_source_id ∧
            (∀ s ∈ pending_timers st1, s ∉ st2.sources))) ∧
    (∀ (deadlines : List Int) (keep : Bool) (st1 : State),
      session_libspotify_event st deadlines = some (keep, st1) →
      keep = false ∧ (pending_timers st1).length = 1 ∧
      ∃ t, process_events_loop deadlines = some t ∧ 1 < t ∧
        ∃ s, pending_timers st1 = [s] ∧ s.interval = some (toU32 t)) ∧
    (∀ (id : Nat) (deadlines : List Int) (st1 : State),
      g_main_dispatch st id deadlines = some st1 → (pending_timers st1).length ≤ 1) := by
  have hinv : sched_inv st := sched_run_inv evs State.initial st sched_inv_initial hrun
  have harm : ∀ (s0 : State), sched_inv s0 → ∀ (pre : List Int) (t : Int) (post : List Int),
      (∀ d ∈ pre, d ≤ 1) → 1 < t → t < 2147483648 →
      ∃ s1, session_libspotify_event s0 (pre ++ t :: post) = some (false, s1) ∧
        pending_timers s1 =
          [{ id := s0.next_source_id, interval := some t.toNat,
             func := GSourceFunc.libspotify_event }] ∧
        s1.evid = s0.next_source_id ∧
        s1.next_source_id = s0.next_source_id + 1 ∧
        (∀ s ∈ pending_timers s0, s ∉ s1.sources) ∧ sched_inv s1 := by
    intro s0 h0 pre t post hpre ht1 ht2
    obtain ⟨s1, h1, h2, h3, h4, h5, h6⟩ := session_libspotify_event_arms s0 h0
      (pre ++ t :: post) t (process_events_loop_some pre t post hpre ht1)
    rw [toU32_of_range t (by omega) (by omega)] at h2
    exact ⟨s1, h1, h2, h3, h4, h5, h6⟩
  refine ⟨pending_timers_le_one st hinv, pending_timers_after_remove st hinv, ?_, ?_, ?_⟩
  · intro pre t post hpre ht1 ht2
    obtain ⟨st1, h1, h2, h3, h4, h5, h6⟩ := harm st hinv pre t post hpre ht1 ht2
    refine ⟨st1, h1, h2, h3, h5, ?_⟩
    intro pre2 t2 post2 hpre2 ht21 ht22
    obtain ⟨st2, g1, g2, _, _, g5, _⟩ := harm st1 h6 pre2 t2 post2 hpre2 ht21 ht22
    exact ⟨st2, g1, g2, by omega, g5⟩
  · intro deadlines keep st1 hev
    obtain ⟨hk, _, hlen⟩ := session_libspotify_event_inv st hinv deadlines keep st1 hev
    refine ⟨hk, hlen, ?_⟩
    cases hloop : process_events_loop deadlines with
    | none =>
      simp only [session_libspotify_event, hloop] at hev
      exact absurd hev (by simp)
    | some t =>
      obtain ⟨st2, h1, h2, _, _, _, _⟩ := session_libspotify_event_arms st hinv deadlines t hloop
      rw [h1] at hev
      injection hev with hev
      injection hev with _ hs
      subst hs
      exact ⟨t, rfl, (process_events_loop_last deadlines t hloop).1, _, h2, rfl⟩
  · intro id deadlines st1 hd
    exact pending_timers_le_one st1 (g_main_dispatch_inv st hinv id deadlines st1 hd)

/-- C9 at a concrete run: a wake request, the idle run it queued (libspotify
reports 0, then 250), a second wake request and its idle run (libspotify
reports 1000), then that timeout firing (libspotify reports 1, 0, 30): the
one timeout left is the last one armed. -/
theorem C9_single_pending_timer_witness :
    sched_run State.initial
        [SchedEvent.notify_main_thread, SchedEvent.dispatch 1 [0, 250],
         SchedEvent.notify_main_thread, SchedEvent.dispatch 3 [1000],
         SchedEvent.dispatch 4 [1, 0, 30]]
      = some { g_starred_playlist := NULL, g_audio_time := 0, g_audio_samples := 0,
               g_audio_rate := 44100, g_session_callbacks := [], evid := 5, sources :=
                 [{ id := 5, interval := some 30, func := GSourceFunc.libspotify_event }],
               next_source_id := 6 } ∧
    (pending_timers
      { g_starred_playlist := NULL, g_audio_time := 0, g_audio_samples := 0,
        g_audio_rate := 44100, g_session_callbacks := [], evid := 5, sources :=
          [{ id := 5, interval := some 30, func := GSourceFunc.libspotify_event }],
        next_source_id := 6 }).length ≤ 1 :=
  ⟨by decide,
   (C9_single_pending_timer
    [SchedEvent.notify_main_thread, SchedEvent.dispatch 1 [0, 250],
     SchedEvent.notify_main_thread, SchedEvent.dispatch 3 [1000],
     SchedEvent.dispatch 4 [1, 0, 30]]
    { g_starred_playlist := NULL, g_audio_time := 0, g_audio_samples := 0,
      g_audio_rate := 44100, g_session_callbacks := [], evid := 5, sources :=
        [{ id := 5, interval := some 30, func := GSourceFunc.libspotify_event }],
      next_source_id := 6 }
    (by decide)).1⟩

end Spop
